import Mathlib

/-!
Verification development for a CODA (Belgian coded bank statement) decoder.

The decoder is a TypeScript module exporting `parse(coda: string)`.  This file
is a shallow embedding of that module in Lean 4:

* JavaScript strings are Lean `String`s; `line[i]` (which may be `undefined`)
  becomes `jsCharAt : String → Nat → Option Char`; `String.prototype.slice`
  with non-negative clamped indices becomes `jsSlice`.
* `Number(s)` is modelled by `jsNumber : String → Option ℚ`, where `none`
  plays the role of `NaN`.  The inputs this decoder feeds to `Number` are
  decimal digit strings (possibly blank-padded), which `Number` maps exactly;
  every other input yields `NaN`.  Amount arithmetic (`* sign`, `/ 1000`) is
  modelled exactly over `ℚ` (all magnitudes fit a double exactly; the spec and
  the claims speak of exact division by 1000).
* `Date` values never have their calendar semantics inspected by the decoder:
  it only builds them from strings.  A decoded date is therefore modelled by
  the argument string handed to the `Date` constructor; the `null` produced
  for the `000000` sentinel of the movement value date is `Option.none`.
* Exceptions (`throw new Error(...)` and `TypeError`s from calling a method on
  `undefined`) become `Except Err`.
* Record objects become structures.  A field that only some record shapes own
  is wrapped in `Option` (`none` = the object has no such own property), so
  that `Object.assign` is `cont.f <|> root.f` on those fields and plain
  overwriting on fields every shape owns.  JS values that may themselves be
  `undefined` (raw `line[i]` accesses) are `Option Char` inside that.
* In-place array mutation (`drop` + `splice(indexOf(x), 1)` on arrays of
  distinct object references) is modelled functionally; element identity is
  structural, which coincides with reference identity for the records built
  here (each parsed line yields a fresh object).
-/

/-- JS whitespace as used by `trim`, `\s` and `split(/\s+/)` (ASCII range:
space, tab, LF, VT, FF, CR; the non-ASCII members never occur in CODA data). -/
def wsChar (c : Char) : Bool :=
  c = ' ' || c = '\t' || c = '\n' || c = '\r' || c.toNat = 11 || c.toNat = 12

/-- `String.prototype.trim`. -/
def jsTrim (s : String) : String :=
  String.mk (((s.data.dropWhile wsChar).reverse.dropWhile wsChar).reverse)

/-- `s.slice(a, b)` for `0 ≤ a`, `0 ≤ b` (the only form the decoder uses). -/
def jsSlice (s : String) (a b : Nat) : String :=
  String.mk ((s.data.drop a).take (b - a))

/-- `s[i]`: a character, or `none` for JS `undefined` when out of range. -/
def jsCharAt (s : String) (i : Nat) : Option Char :=
  s.data.get? i

/-- `s.startsWith(p)`. -/
def jsStartsWith (s p : String) : Bool :=
  jsSlice s 0 p.length == p

/-- Numeric value of a decimal digit list (most significant first). -/
def digitsVal (l : List Char) : Nat :=
  l.foldl (fun n c => 10 * n + (c.toNat - 48)) 0

/-- `Number(s)` on the strings this decoder produces: blank strings map to
`0`, unsigned decimal digit strings map to their value, everything else is
`NaN` (modelled as `none`).  Signs, decimal points, exponents and hex forms
never occur in CODA fields. -/
def jsNumber (s : String) : Option ℚ :=
  let t := jsTrim s
  if t.data = [] then some 0
  else if t.data.all Char.isDigit then some ((digitsVal t.data : ℕ) : ℚ)
  else none

/-- `Number(line[i])`: `Number(undefined)` is `NaN`. -/
def jsNumberAt (s : String) (i : Nat) : Option ℚ :=
  match jsCharAt s i with
  | none => none
  | some c => jsNumber (String.mk [c])

/-- NaN-propagating multiplication by an exact constant. -/
def jsMul (a : Option ℚ) (b : ℚ) : Option ℚ := a.map (· * b)

/-- NaN-propagating division by an exact constant. -/
def jsDiv (a : Option ℚ) (b : ℚ) : Option ℚ := a.map (· / b)

lemma dropWhile_length_le (p : Char → Bool) (l : List Char) :
    (l.dropWhile p).length ≤ l.length := by
  induction l with
  | nil => simp [List.dropWhile]
  | cons c cs ih =>
    by_cases h : p c
    · simpa [List.dropWhile, h] using Nat.le_succ_of_le ih
    · simp [List.dropWhile, h]

/-- One step of `replace(/\s{2,}/g, ' ')`, recursing on a fuel bounded by
the list length so that the kernel can evaluate it (each step consumes at
least one character): a run of two or more whitespace characters becomes a
single space; shorter runs are kept verbatim. -/
def collapseWsAux : Nat → List Char → List Char
  | _, [] => []
  | 0, _ :: _ => []
  | fuel + 1, c :: cs =>
    if wsChar c then
      (if cs.takeWhile wsChar ≠ [] then [' '] else [c]) ++
        collapseWsAux fuel (cs.dropWhile wsChar)
    else
      c :: collapseWsAux fuel cs

def collapseWs (l : List Char) : List Char := collapseWsAux l.length l

/-- `s.trim().replace(/\s{2,}/g, ' ')`, the normalisation applied to merged
communication buffers. -/
def jsNormalize (s : String) : String :=
  String.mk (collapseWs (jsTrim s).data)

/-- Split a character list at every separator (structurally recursive, so it
evaluates inside the kernel; `String.split` itself is defined by well-founded
recursion on positions). -/
def splitOnChar (p : Char → Bool) : List Char → List (List Char)
  | [] => [[]]
  | c :: cs =>
    if p c then [] :: splitOnChar p cs
    else
      match splitOnChar p cs with
      | [] => [[c]]
      | t :: ts => (c :: t) :: ts

/-- `s.split('\n')` (always at least one piece; `""` splits to `[""]`). -/
def jsSplitNewline (s : String) : List String :=
  (splitOnChar (· = '\n') s.data).map String.mk

/-- `s.split(/\s+/g)`: split on maximal whitespace runs.  Implemented by first
collapsing runs (a run becomes one whitespace character) and then splitting on
single whitespace characters, which is equivalent. -/
def jsSplitWs (s : String) : List String :=
  (splitOnChar wsChar (collapseWs s.data)).map String.mk

/-- utils/string-stream.ts: a cursor over one line; `take n` returns
`str.slice(pos, pos + n)` and advances, `skip n` advances. -/
structure StringStream where
  str : String
  pos : Nat

def StringStream.skip (s : StringStream) (n : Nat) : StringStream :=
  { s with pos := s.pos + n }

def StringStream.take (s : StringStream) (n : Nat) : String × StringStream :=
  (jsSlice s.str s.pos (s.pos + n), { s with pos := s.pos + n })

/-- The runtime errors the decoder can raise, one constructor per `throw`
site (plus the `TypeError`s JS raises when a method is called on
`undefined`, and the error thrown by `utils/match.ts` when a value has no
handler and no wildcard is given). -/
inductive Err where
  | unknownRecordType
  | unknownDateFormat
  | unknownStructuredCommunicationType
  | unknownStructuredMovementCommunicationType
  | unknownCommunicationType
  | unknownMovementCommunicationType
  | matchNoHandler
  | typeError
deriving DecidableEq

/-- `parseDate`: dispatch on the digit-string length.  6 = DDMMYY with the
century taken from the current system year (`(fullYear / 100 | 0)` prefixed
textually), 8 = DDMMYYYY, 10 = DDMMYYHHMM.  The result models the string
handed to the `Date` constructor; any other length throws. -/
def parseDate (century : Nat) (input : String) : Except Err String :=
  match input.length with
  | 6 =>
    let s := StringStream.mk input 0
    let (day, s) := s.take 2
    let (month, s) := s.take 2
    let (year, _) := s.take 2
    .ok (Nat.repr century ++ year ++ "-" ++ month ++ "-" ++ day)
  | 8 =>
    let s := StringStream.mk input 0
    let (day, s) := s.take 2
    let (month, s) := s.take 2
    let (year, _) := s.take 4
    .ok (year ++ "-" ++ month ++ "-" ++ day)
  | 10 =>
    let s := StringStream.mk input 0
    let (day, s) := s.take 2
    let (month, s) := s.take 2
    let (year, s) := s.take 2
    let (hour, s) := s.take 2
    let (minute, _) := s.take 2
    .ok (year ++ "-" ++ month ++ "-" ++ day ++ " " ++ hour ++ ":" ++ minute ++ ":00")
  | _ => .error .unknownDateFormat

/-- `match(line[i], { [Sign.Credit]: 1, [Sign.Debit]: -1 })`: no wildcard, so
any other character (or `undefined`) throws the match error. -/
def matchSign (c : Option Char) : Except Err ℚ :=
  match c with
  | some '0' => .ok 1
  | some '1' => .ok (-1)
  | _ => .error .matchNoHandler

/-- Same sign table keyed by a one-character `stream.take(1)` string. -/
def matchSignStr (s : String) : Except Err ℚ :=
  match s.data with
  | ['0'] => .ok 1
  | ['1'] => .ok (-1)
  | _ => .error .matchNoHandler

/-- Communication-type flag of movement/information records. -/
inductive CommType where
  | unstructured
  | structured
deriving DecidableEq

/-- `match(line[i], { '0': 'unstructured', '1': 'structured' })`: no wildcard,
any other character (or `undefined`) throws the match error. -/
def matchCommType (c : Option Char) : Except Err CommType :=
  match c with
  | some '0' => .ok .unstructured
  | some '1' => .ok .structured
  | _ => .error .matchNoHandler

/-- `parseAccount`: the four account-structure variants.  The stored `type`
and `type_description` fields are determined by the constructor. -/
inductive Account where
  | belgian (number currency qualification_code country extension_zone : String)
  | foreign (number currency : String)
  | ibanBelgian (number currency : String)
  | ibanForeign (number currency : String)
deriving DecidableEq

/-- `parseAccount(structure, line)`: dispatch on the numeric structure
discriminant; any value outside `{0, 1, 2, 3}` (including `NaN`) falls
through the `switch` and the function returns `undefined` (`none`).  The
source parameter name `structure` is a Lean keyword, hence `structure_`. -/
def parseAccount (structure_ : Option ℚ) (line : String) : Option Account :=
  match structure_ with
  | some 0 =>
    let s := StringStream.mk line 0
    let (number, s) := s.take 12
    let (currency, s) := (s.skip 1).take 3
    let (qualification_code, s) := s.take 1
    let (country, s) := s.take 2
    let (extension_zone, _) := (s.skip 3).take 15
    some (.belgian (jsTrim number) (jsTrim currency) (jsTrim qualification_code)
      (jsTrim country) (jsTrim extension_zone))
  | some 1 =>
    let s := StringStream.mk line 0
    let (number, s) := s.take 34
    let (currency, _) := s.take 3
    some (.foreign (jsTrim number) (jsTrim currency))
  | some 2 =>
    let s := StringStream.mk line 0
    let (number, s) := s.take 31
    let (currency, _) := (s.skip 3).take 3
    some (.ibanBelgian (jsTrim number) (jsTrim currency))
  | some 3 =>
    let s := StringStream.mk line 0
    let (number, s) := s.take 34
    let (currency, _) := s.take 3
    some (.ibanForeign (jsTrim number) (jsTrim currency))
  | _ => none

/-- `parseTransactionCode`: the four stored code fields; the
`*_description` fields of the source are lazily-computed getters over these
codes and are modelled as the standalone lookup functions below. -/
structure TransactionCode where
  type : String
  family : String
  transaction : String
  category : String
deriving DecidableEq

def parseTransactionCode (input : String) : TransactionCode :=
  let s := StringStream.mk input 0
  let (type, s) := s.take 1
  let (family, s) := s.take 2
  let (transaction, s) := s.take 2
  let (category, _) := s.take 3
  { type, family, transaction, category }

/-- The lookup helper of utils/match.ts applied to a description table: a
value that is a key of the lookup resolves to its entry, anything else to
the `[__]` wildcard default. -/
def matchLookup {α : Type} (table : List (String × α)) (dflt : α) (value : String) : α :=
  match table.find? (fun kv => kv.1 == value) with
  | some kv => kv.2
  | none => dflt

/-- The `family_description` lookup table. -/
def familyTable : List (String × String) :=
  [("01", "Domestic or local SEPA credit transfers"),
   ("41", "International credit transfers - non-SEPA credit transfers"),
   ("02", "Instant SEPA credit transfer"),
   ("03", "Cheques"),
   ("43", "Foreign cheques"),
   ("04", "Cards"),
   ("05", "Direct debit"),
   ("07", "Domestic commercial paper"),
   ("47", "Foreign commercial paper"),
   ("09", "Counter transactions"),
   ("11", "Securities"),
   ("13", "Credit"),
   ("30", "Various transactions"),
   ("35", "Closing (periodical settlements for interest, costs, ...)"),
   ("80", "Separately charged costs and provisions")]

/-- The `family_description` getter: keyed lookup with the `[__]` wildcard
mapping every unknown family code to the sentinel. -/
def familyDescription (family : String) : String :=
  matchLookup familyTable "<Unknown>" family

/-- The family codes the `family_description` table handles explicitly. -/
def knownFamilies : List String :=
  familyTable.map Prod.fst

/-- A value of the `category_description` table: two entries (`202`, `211`)
are arrays of strings, the rest are plain strings. -/
inductive DescVal where
  | str (s : String)
  | strs (l : List String)
deriving DecidableEq

/-- The `category_description` lookup table (two entries, `202` and `211`,
are arrays of strings in the source). -/
def categoryTable : List (String × DescVal) :=
  [("000", (DescVal.str "Net amount")),
   ("001", (DescVal.str "Interest received")),
   ("002", (DescVal.str "Interest paid")),
   ("003", (DescVal.str "Credit commision")),
   ("004", (DescVal.str "Postage")),
   ("005", (DescVal.str "Renting of letterbox")),
   ("006", (DescVal.str "Various fees/commissions")),
   ("007", (DescVal.str "Access right to database")),
   ("008", (DescVal.str "Information charges")),
   ("009", (DescVal.str "Travelling expenses")),
   ("010", (DescVal.str "Writ service fee")),
   ("011", (DescVal.str "VAT")),
   ("012", (DescVal.str "Exchange commission")),
   ("013", (DescVal.str "Payment commission")),
   ("014", (DescVal.str "Collection commission")),
   ("015", (DescVal.str "Correspondent charges")),
   ("016", (DescVal.str "Negative interest")),
   ("017", (DescVal.str "Research costs")),
   ("018", (DescVal.str "Tental guarantee charges")),
   ("019", (DescVal.str "Tax on physical delivery")),
   ("020", (DescVal.str "Costs of physical delivery")),
   ("021", (DescVal.str "Costs for drawing up a bank cheque")),
   ("022", (DescVal.str "Priority costs")),
   ("023", (DescVal.str "Exercising fee")),
   ("024", (DescVal.str "Growth premium")),
   ("025", (DescVal.str "Individual entry for exchange charges")),
   ("026", (DescVal.str "Handling commission")),
   ("027", (DescVal.str "Charges for unpaid bills")),
   ("028", (DescVal.str "Fidelity premium")),
   ("029", (DescVal.str "Protest charges")),
   ("030", (DescVal.str "Account insurance")),
   ("031", (DescVal.str "Charges foreign cheque")),
   ("032", (DescVal.str "Drawing up a circular cheque")),
   ("033", (DescVal.str "Charges for a foreign bill")),
   ("034", (DescVal.str "Reinvestment fee")),
   ("035", (DescVal.str "Charges foreign documentary bill")),
   ("036", (DescVal.str "Costs relating to a refused cheque")),
   ("037", (DescVal.str "Commission for handling charges")),
   ("039", (DescVal.str "Telecommunications")),
   ("041", (DescVal.str "Credit card costs")),
   ("042", (DescVal.str "Payment card costs")),
   ("043", (DescVal.str "Insurance costs")),
   ("045", (DescVal.str "Handling costs")),
   ("047", (DescVal.str "Charges extension bill")),
   ("049", (DescVal.str "Fiscal stamps/stamp duty")),
   ("050", (DescVal.str "Capital term investment")),
   ("051", (DescVal.str "Withholding tax")),
   ("052", (DescVal.str "")),
   ("053", (DescVal.str "Printing of forms")),
   ("055", (DescVal.str "Repayment loan or credit capital")),
   ("057", (DescVal.str "Interest subsidy")),
   ("058", (DescVal.str "Capital premium")),
   ("059", (DescVal.str "Default interest")),
   ("061", (DescVal.str "Charging fees for transactions")),
   ("063", (DescVal.str "Rounding differences")),
   ("065", (DescVal.str "Interest payment advice")),
   ("066", (DescVal.str "Fixed loan advance \x2013 reimbursement")),
   ("067", (DescVal.str "Fixed loan advance - extension")),
   ("068", (DescVal.str "Countervalue of an entry")),
   ("069", (DescVal.str "Forward arbitrage contracts: sum to be supplied by customer")),
   ("070", (DescVal.str "Forward arbitrage contracts: sum to be supplied by bank")),
   ("071", (DescVal.str "Fixed loan advance - availability")),
   ("072", (DescVal.str "Countervalue of commission to third party")),
   ("073", (DescVal.str "Costs of ATM abroad")),
   ("074", (DescVal.str "Mailing costs")),
   ("100", (DescVal.str "Gross amount")),
   ("200", (DescVal.str "Overall documentary credit charges")),
   ("201", (DescVal.str "Advice notice commission")),
   ("202", (DescVal.strs ["Advising commission", "Additional advising commission"])),
   ("203", (DescVal.str "Confirmation fee\nAdditional confirmation fee\nCommitment fee\nFlat fee\nConfirmation reservation commission\nAdditional reservation commission")),
   ("204", (DescVal.str "Amendment fee")),
   ("205", (DescVal.str "Documentary payment commission\nDocument commission\nDrawdown fee\nNegotiation fee")),
   ("206", (DescVal.str "Surety fee/payment under reserve")),
   ("207", (DescVal.str "Non-conformity fee")),
   ("208", (DescVal.str "Commitment fee deferred payment")),
   ("209", (DescVal.str "Transfer commission")),
   ("210", (DescVal.str "Commitment fee")),
   ("211", (DescVal.strs ["Credit arrangement fee", "Additional credit arrangement fee"])),
   ("212", (DescVal.str "Warehousing fee")),
   ("213", (DescVal.str "Financing fee")),
   ("214", (DescVal.str "Issue commission (delivery order)")),
   ("400", (DescVal.str "Acceptance fee")),
   ("401", (DescVal.str "Visa charges")),
   ("402", (DescVal.str "Certification costs")),
   ("403", (DescVal.str "Minimum discount rate")),
   ("404", (DescVal.str "Discount commission")),
   ("405", (DescVal.str "Bill guarantee commission")),
   ("406", (DescVal.str "Collection charges")),
   ("407", (DescVal.str "Costs Article 45")),
   ("408", (DescVal.str "Cover commission")),
   ("409", (DescVal.str "Safe deposit charges")),
   ("410", (DescVal.str "Reclamation charges")),
   ("411", (DescVal.str "Fixed collection charge")),
   ("412", (DescVal.str "Advice of expiry charges")),
   ("413", (DescVal.str "Acceptance charges")),
   ("414", (DescVal.str "Regularisation charges")),
   ("415", (DescVal.str "Surety fee")),
   ("416", (DescVal.str "Charges for the deposit of security")),
   ("418", (DescVal.str "Endorsement commission")),
   ("419", (DescVal.str "Bank service fee")),
   ("420", (DescVal.str "Retention charges")),
   ("425", (DescVal.str "Foreign broker\x27s commission")),
   ("426", (DescVal.str "Belgian broker\x27s commission")),
   ("427", (DescVal.str "Belgian Stock Exchange tax")),
   ("428", (DescVal.str "Interest accrued")),
   ("429", (DescVal.str "Foreign Stock Exchange tax")),
   ("430", (DescVal.str "Recovery of foreign tax")),
   ("431", (DescVal.str "Delivery of a copy")),
   ("435", (DescVal.str "Tax on physical securities")),
   ("436", (DescVal.str "Supplementary tax")),
   ("437", (DescVal.str "Speculation tax")),
   ("438", (DescVal.str "Securities account tax"))]

/-- The `category_description` getter: keyed lookup with the `[__]` wildcard
mapping every unknown category code to the sentinel. -/
def categoryDescription (category : String) : DescVal :=
  matchLookup categoryTable (.str "<Unknown>") category

/-- The category codes the `category_description` table handles explicitly. -/
def knownCategories : List String :=
  categoryTable.map Prod.fst

/-- The decoded payload of a structured movement communication
(`parseCommunicationMovement`, structured branch): one constructor per
handled discriminant.  The stored `type` / `type_description` fields are
determined by the constructor; nested objects (`first_transaction`,
`last_transaction`, `identification_terminal`, `period`) are flattened with
prefixed field names. -/
inductive MovStructComm where
  | c100 (value : String)
  | c101 (value : String)
  | c102 (value : String)
  | c103 (value : String)
  | c105 (gross_amount_currency_account gross_amount_original_currency rate : Option ℚ)
      (currency structured_format_communication country_code_principal : String)
      (equivalent_eur : Option ℚ)
  | c106 (equivalent_currency_account amount percent : Option ℚ) (minimum : Bool)
      (equivalent_eur : Option ℚ)
  | c108 (equivalent_currency_account interest_rates_calculation_basis interest : Option ℚ)
      (period_from period_to : String)
  | c111 (card_scheme : Option ℚ) (pos_number period_number : String)
      (first_sequence_number first_date last_sequence_number last_date : String)
      (transaction_type : Option ℚ) (terminal_name terminal_locality : String)
  | c113 (masked_pan : String) (card_scheme terminal_number sequence_number : Option ℚ)
      (date : String) (transaction_type : Option ℚ) (terminal_name terminal_city : String)
      (original_amount rate : Option ℚ) (currency : String)
      (volume product_code unit_price : Option ℚ)
  | c114 (card_scheme : Option ℚ) (pos_number : String)
      (period_number sequence_number : Option ℚ) (date : String)
      (transaction_type : Option ℚ) (terminal_name terminal_city reference : String)
  | c115 (masked_pan : String) (card_scheme terminal_number sequence_number : Option ℚ)
      (payment_day : String) (sequence_number_validation original_amount_customer : Option ℚ)
      (conformity_code terminal_name terminal_locality message : String)
  | c121 (amount : Option ℚ) (maturity_date conventional_maturity_date issue_date : String)
      (company_number currency number : String) (exchange_rate : Option ℚ)
  | c122 (number_of_days interest_rate basic_amount : Option ℚ) (minimum_rate : Bool)
      (number maturity_date : String)
  | c123 (starting_date maturity_date : String)
      (basic_amount percentage term_in_days : Option ℚ) (minimum_rate : Bool)
      (guarantee_number : String)
  | c124 (masked_pan : String) (issuing_institution : Option ℚ)
      (invoice_number identification_number date : String)
  | c125 (account_number extension_zone_account_number : String)
      (old_balance new_balance amount : Option ℚ) (currency start_date end_date : String)
      (nominal_interest_rate : Option ℚ) (reference : String)
  | c126 (deposit_number : String) (deposit_amount equivalent_currency_account : Option ℚ)
      (start_date end_date : String) (interest_rate : Option ℚ)
      (amount_of_interest currency : String) (rate : Option ℚ)
  | c127 (settlement_date : String)
      (type_direct_debit direct_debit_scheme paid_or_reason_for_refused_payment : Option ℚ)
      (creditor_identification_code mandate_reference communication : String)
      (type_of_r_transaction : Option ℚ) (reason : String)
deriving DecidableEq

/-- The numeric discriminants handled by the structured-movement `switch`. -/
def movStructTypes : List ℚ :=
  [100, 101, 102, 103, 105, 106, 108, 111, 113, 114, 115, 121, 122, 123, 124, 125, 126, 127]

/-- `Number(stream.take(n).trim()) / 1_000` and friends. -/
def numOver (t : String) (d : ℚ) : Option ℚ := jsDiv (jsNumber (jsTrim t)) d

/-- The structured branch of `parseCommunicationMovement`: take the 3-digit
discriminant off the front, `switch (Number(...))` over it; an unhandled
value (including `NaN`) hits the `default` and throws. -/
def parseStructuredMovement (century : Nat) (line : String) : Except Err MovStructComm :=
  let s := StringStream.mk line 0
  let (t3, s) := s.take 3
  match jsNumber t3 with
  | none => .error .unknownStructuredMovementCommunicationType
  | some structuredType =>
    if structuredType = 100 then
      let (value, _) := s.take 21
      .ok (.c100 (jsTrim value))
    else if structuredType = 101 then
      let (value, _) := s.take (10 + 2)
      .ok (.c101 (jsTrim value))
    else if structuredType = 102 then
      let (value, _) := s.take (10 + 2)
      .ok (.c102 (jsTrim value))
    else if structuredType = 103 then
      let (value, _) := s.take 12
      .ok (.c103 value)
    else if structuredType = 105 then
      let (gross_amount_currency_account, s) := s.take (12 + 3)
      let (gross_amount_original_currency, s) := s.take (12 + 3)
      let (rate, s) := s.take (4 + 8)
      let (currency, s) := s.take 3
      let (structured_format_communication, s) := s.take 12
      let (country_code_principal, s) := s.take 2
      let (equivalent_eur, _) := s.take (12 + 3)
      .ok (.c105 (numOver gross_amount_currency_account 1000)
        (numOver gross_amount_original_currency 1000) (numOver rate 100000000)
        (jsTrim currency) (jsTrim structured_format_communication)
        (jsTrim country_code_principal) (numOver equivalent_eur 1000))
    else if structuredType = 106 then
      let (equivalent_currency_account, s) := s.take (12 + 3)
      let (amount, s) := s.take (12 + 3)
      let (percent, s) := s.take (4 + 8)
      let (minimum, s) := s.take 1
      let (equivalent_eur, _) := s.take (12 + 3)
      .ok (.c106 (numOver equivalent_currency_account 1000) (numOver amount 1000)
        (numOver percent 100000000) (jsTrim minimum = "1") (numOver equivalent_eur 1000))
    else if structuredType = 108 then
      let (equivalent_currency_account, s) := s.take (12 + 3)
      let (interest_rates_calculation_basis, s) := s.take 15
      let (interest, s) := s.take (4 + 8)
      let (fromRaw, s) := s.take 6
      let (toRaw, _) := s.take 6
      match parseDate century (jsTrim fromRaw) with
      | .error e => .error e
      | .ok period_from =>
        match parseDate century (jsTrim toRaw) with
        | .error e => .error e
        | .ok period_to =>
          .ok (.c108 (numOver equivalent_currency_account 1000)
            (jsNumber (jsTrim interest_rates_calculation_basis))
            (numOver interest 100000000) period_from period_to)
    else if structuredType = 111 then
      let (card_scheme, s) := s.take 1
      let (pos_number, s) := s.take 6
      let (period_number, s) := s.take 3
      let (first_sequence_number, s) := s.take 6
      let (firstDateRaw, s) := s.take 6
      let (last_sequence_number, s) := s.take 6
      let (lastDateRaw, s) := s.take 6
      let (transaction_type, s) := s.take 1
      let (terminal_name, s) := s.take 16
      let (terminal_locality, _) := s.take 10
      match parseDate century (jsTrim firstDateRaw) with
      | .error e => .error e
      | .ok first_date =>
        match parseDate century (jsTrim lastDateRaw) with
        | .error e => .error e
        | .ok last_date =>
          .ok (.c111 (jsNumber (jsTrim card_scheme)) (jsTrim pos_number) (jsTrim period_number)
            (jsTrim first_sequence_number) first_date (jsTrim last_sequence_number) last_date
            (jsNumber (jsTrim transaction_type)) (jsNormalize terminal_name)
            (jsNormalize terminal_locality))
    else if structuredType = 113 then
      let (masked_pan, s) := s.take 16
      let (card_scheme, s) := s.take 1
      let (terminal_number, s) := s.take 6
      let (sequence_number, s) := s.take 6
      let (dateRaw, s) := s.take (6 + 4)
      let (transaction_type, s) := s.take 1
      let (terminal_name, s) := s.take 16
      let (terminal_city, s) := s.take 10
      let (original_amount, s) := s.take (12 + 3)
      let (rate, s) := s.take (4 + 8)
      let (currency, s) := s.take 3
      let (volume, s) := s.take (3 + 2)
      let (product_code, s) := s.take 2
      let (unit_price, _) := s.take (2 + 3)
      match parseDate century (jsTrim dateRaw) with
      | .error e => .error e
      | .ok date =>
        .ok (.c113 (jsTrim masked_pan) (jsNumber (jsTrim card_scheme))
          (jsNumber (jsTrim terminal_number)) (jsNumber (jsTrim sequence_number)) date
          (jsNumber (jsTrim transaction_type)) (jsTrim terminal_name) (jsTrim terminal_city)
          (numOver original_amount 1000) (numOver rate 100000000) (jsTrim currency)
          (numOver volume 100) (jsNumber (jsTrim product_code)) (numOver unit_price 100))
    else if structuredType = 114 then
      let (card_scheme, s) := s.take 1
      let (pos_number, s) := s.take 6
      let (period_number, s) := s.take 3
      let (sequence_number, s) := s.take 6
      let (dateRaw, s) := s.take (6 + 4)
      let (transaction_type, s) := s.take 1
      let (terminal_name, s) := s.take 16
      let (terminal_city, s) := s.take 10
      let (reference, _) := s.take 16
      match parseDate century (jsTrim dateRaw) with
      | .error e => .error e
      | .ok date =>
        .ok (.c114 (jsNumber (jsTrim card_scheme)) (jsTrim pos_number)
          (jsNumber (jsTrim period_number)) (jsNumber (jsTrim sequence_number)) date
          (jsNumber (jsTrim transaction_type)) (jsTrim terminal_name) (jsTrim terminal_city)
          (jsTrim reference))
    else if structuredType = 115 then
      let (masked_pan, s) := s.take 16
      let (card_scheme, s) := s.take 1
      let (terminal_number, s) := s.take 6
      let (sequence_number, s) := s.take 6
      let (payDayRaw, s) := s.take (6 + 4)
      let (sequence_number_validation, s) := s.take 6
      let (original_amount_customer, s) := s.take (12 + 3)
      let (conformity_code, s) := s.take 1
      let (terminal_name, s) := s.take 16
      let (terminal_locality, s) := s.take 10
      let (message, _) := s.take 12
      match parseDate century (jsTrim payDayRaw) with
      | .error e => .error e
      | .ok payment_day =>
        .ok (.c115 (jsTrim masked_pan) (jsNumber (jsTrim card_scheme))
          (jsNumber (jsTrim terminal_number)) (jsNumber (jsTrim sequence_number)) payment_day
          (jsNumber (jsTrim sequence_number_validation)) (numOver original_amount_customer 1000)
          (jsTrim conformity_code) (jsNormalize terminal_name) (jsNormalize terminal_locality)
          (jsTrim message))
    else if structuredType = 121 then
      let (amount, s) := s.take (12 + 3)
      let (matRaw, s) := s.take 6
      let (convMatRaw, s) := s.take 6
      let (issueRaw, s) := s.take 6
      let (company_number, s) := s.take (1 + 10)
      let (currency, s) := s.take 3
      let (number, s) := (s.skip 3).take 13
      let (exchange_rate, _) := s.take (4 + 8)
      match parseDate century (jsTrim matRaw) with
      | .error e => .error e
      | .ok maturity_date =>
        match parseDate century (jsTrim convMatRaw) with
        | .error e => .error e
        | .ok conventional_maturity_date =>
          match parseDate century (jsTrim issueRaw) with
          | .error e => .error e
          | .ok issue_date =>
            .ok (.c121 (numOver amount 1000) maturity_date conventional_maturity_date
              issue_date (jsTrim company_number) (jsTrim currency) (jsTrim number)
              (numOver exchange_rate 100000000))
    else if structuredType = 122 then
      let (number_of_days, s) := s.take 4
      let (interest_rate, s) := s.take (4 + 8)
      let (basic_amount, s) := s.take (12 + 3)
      let (minimum_rate, s) := s.take 1
      let (number, s) := s.take 13
      let (matRaw, _) := s.take 6
      match parseDate century (jsTrim matRaw) with
      | .error e => .error e
      | .ok maturity_date =>
        .ok (.c122 (jsNumber (jsTrim number_of_days)) (numOver interest_rate 100000000)
          (numOver basic_amount 1000) (jsTrim minimum_rate = "1") (jsTrim number)
          maturity_date)
    else if structuredType = 123 then
      let (startRaw, s) := s.take 6
      let (matRaw, s) := s.take 6
      let (basic_amount, s) := s.take (12 + 3)
      let (percentage, s) := s.take (4 + 8)
      let (term_in_days, s) := s.take 4
      let (minimum_rate, s) := s.take 1
      let (guarantee_number, _) := s.take 13
      match parseDate century (jsTrim startRaw) with
      | .error e => .error e
      | .ok starting_date =>
        match parseDate century (jsTrim matRaw) with
        | .error e => .error e
        | .ok maturity_date =>
          .ok (.c123 starting_date maturity_date (numOver basic_amount 1000)
            (numOver percentage 100000000) (jsNumber (jsTrim term_in_days))
            (jsTrim minimum_rate = "1") (jsTrim guarantee_number))
    else if structuredType = 124 then
      let (masked_pan, s) := s.take 20
      let (issuing_institution, s) := s.take 1
      let (invoice_number, s) := s.take 12
      let (identification_number, s) := s.take 15
      let (dateRaw, _) := s.take 6
      match parseDate century (jsTrim dateRaw) with
      | .error e => .error e
      | .ok date =>
        .ok (.c124 (jsTrim masked_pan) (jsNumber (jsTrim issuing_institution))
          (jsTrim invoice_number) (jsTrim identification_number) date)
    else if structuredType = 125 then
      let (account_number, s) := s.take 12
      let (extension_zone_account_number, s) := s.take 15
      let (old_balance, s) := s.take (12 + 3)
      let (new_balance, s) := s.take (12 + 3)
      let (amount, s) := s.take (12 + 3)
      let (currency, s) := s.take 3
      let (startRaw, s) := s.take 6
      let (endRaw, s) := s.take 6
      let (nominal_interest_rate, s) := s.take (4 + 8)
      let (reference, _) := s.take 13
      match parseDate century (jsTrim startRaw) with
      | .error e => .error e
      | .ok start_date =>
        match parseDate century (jsTrim endRaw) with
        | .error e => .error e
        | .ok end_date =>
          .ok (.c125 (jsTrim account_number) (jsTrim extension_zone_account_number)
            (numOver old_balance 1000) (numOver new_balance 1000) (numOver amount 1000)
            (jsTrim currency) start_date end_date (numOver nominal_interest_rate 100000000)
            (jsTrim reference))
    else if structuredType = 126 then
      let (deposit_number, s) := s.take 15
      let (deposit_amount, s) := s.take (12 + 3)
      let (equivalent_currency_account, s) := s.take (12 + 3)
      let (startRaw, s) := s.take 6
      let (endRaw, s) := s.take 6
      let (interest_rate, s) := s.take (4 + 8)
      let (amount_of_interest, s) := s.take 15
      let (currency, s) := s.take 3
      let (rate, _) := s.take (4 + 8)
      match parseDate century (jsTrim startRaw) with
      | .error e => .error e
      | .ok start_date =>
        match parseDate century (jsTrim endRaw) with
        | .error e => .error e
        | .ok end_date =>
          .ok (.c126 (jsTrim deposit_number) (numOver deposit_amount 1000)
            (numOver equivalent_currency_account 1000) start_date end_date
            (numOver interest_rate 100000000) (jsTrim amount_of_interest) (jsTrim currency)
            (numOver rate 100000000))
    else if structuredType = 127 then
      let (settleRaw, s) := s.take 6
      let (type_direct_debit, s) := s.take 1
      let (direct_debit_scheme, s) := s.take 1
      let (paid_or_reason_for_refused_payment, s) := s.take 1
      let (creditor_identification_code, s) := s.take 35
      let (mandate_reference, s) := s.take 35
      let (communication, s) := s.take 62
      let (type_of_r_transaction, s) := s.take 1
      let (reason, _) := s.take 4
      match parseDate century (jsTrim settleRaw) with
      | .error e => .error e
      | .ok settlement_date =>
        .ok (.c127 settlement_date (jsNumber (jsTrim type_direct_debit))
          (jsNumber (jsTrim direct_debit_scheme))
          (jsNumber (jsTrim paid_or_reason_for_refused_payment))
          (jsTrim creditor_identification_code) (jsTrim mandate_reference)
          (jsTrim communication) (jsNumber (jsTrim type_of_r_transaction)) (jsTrim reason))
    else .error .unknownStructuredMovementCommunicationType

/-- The decoded payload of a structured detail/information communication
(`parseCommunicationDetail`, structured branch).  Cases `002`, `004`, `005`
share one body (`dText`), as do `008` and `009` (`dIdent`). -/
inductive DetStructComm where
  | d001 (name address locality identification_code : String)
  | dText (value : String)
  | d006 (description currency : String) (amount : Option ℚ) (category : Option ℚ)
  | d007 (number denomination total : Option ℚ)
  | dIdent (name identification_code : String)
  | d010 (order_number bank_reference_number customer_reference_number : String)
      (securities_code_type securities_code_value method : String)
      (number currency number_per_transaction_unit : Option ℚ)
      (quotation_currency : String) (stock_exchange_rate exchange_rate : Option ℚ)
      (name bordereau_number coupon_number coupon_payment_date : String)
      (country_stock_exchange_market purchase_sale_date nature : String)
      (nominal_value : Option ℚ)
  | d011 (order_number bank_reference_number customer_reference_number : String)
      (securities_code_type securities_code_value : String) (number : Option ℚ)
      (name currency : String) (amount : Option ℚ) (type : String)
      (foreign_tax_rate : Option ℚ) (nature coupon_number date : String)
      (exchange_rate : Option ℚ) (currency_payment : String) (nominal_value : Option ℚ)
deriving DecidableEq

/-- `match(stream.take(1).trim(), { '1': 'dividend', '0': 'interest' })`:
no wildcard, so any other string throws the match error. -/
def matchAmountType (s : String) : Except Err String :=
  match s.data with
  | ['1'] => .ok "dividend"
  | ['0'] => .ok "interest"
  | _ => .error .matchNoHandler

/-- The string discriminants handled by the structured-detail `switch`. -/
def detStructTypes : List String :=
  ["001", "002", "004", "005", "006", "007", "008", "009", "010", "011"]

/-- The structured branch of `parseCommunicationDetail`: `switch` on the
3-character string taken off the front; an unhandled string hits the
`default` and throws. -/
def parseStructuredDetail (century : Nat) (line : String) : Except Err DetStructComm :=
  let s := StringStream.mk line 0
  let (t3, s) := s.take 3
  if t3 = "001" then
    let (name, s) := s.take 70
    let (address, s) := s.take 35
    let (locality, s) := s.take 35
    let (identification_code, _) := s.take 35
    .ok (.d001 (jsTrim name) (jsNormalize address) (jsNormalize locality)
      (jsTrim identification_code))
  else if t3 = "002" ∨ t3 = "004" ∨ t3 = "005" then
    let (a, s) := s.take 35
    let (b, s) := s.take 35
    let (c, s) := s.take 35
    let (d, _) := s.take 35
    .ok (.dText (jsTrim a ++ "\n" ++ jsTrim b ++ "\n" ++ jsTrim c ++ "\n" ++ jsTrim d))
  else if t3 = "006" then
    let (description, s) := s.take 30
    let (currency, s) := s.take 3
    let (amountRaw, s) := s.take (12 + 3)
    let (signRaw, s) := s.take 1
    let (category, _) := s.take 3
    match matchSignStr signRaw with
    | .error e => .error e
    | .ok sgn =>
      .ok (.d006 (jsTrim description) (jsTrim currency)
        (jsDiv (jsMul (jsNumber amountRaw) sgn) 1000) (jsNumber (jsTrim category)))
  else if t3 = "007" then
    let (number, s) := s.take 7
    let (denomination, s) := s.take (3 + 3)
    let (total, _) := s.take (12 + 3)
    .ok (.d007 (jsNumber (jsTrim number)) (numOver denomination 1000) (numOver total 1000))
  else if t3 = "008" ∨ t3 = "009" then
    let (name, s) := s.take 70
    let (identification_code, _) := s.take 35
    .ok (.dIdent (jsTrim name) (jsTrim identification_code))
  else if t3 = "010" then
    let (order_number, s) := s.take 13
    let (bank_reference_number, s) := s.take 15
    let (customer_reference_number, s) := s.take 13
    let (securities_code_type, s) := s.take 2
    let (securities_code_value, s) := s.take 15
    let (method, s) := s.take 1
    let (number, s) := s.take (8 + 4)
    let (currency, s) := s.take 3
    let (number_per_transaction_unit, s) := s.take 4
    let (quotation_currency, s) := s.take 3
    let (stock_exchange_rate, s) := s.take (8 + 4)
    let (exchange_rate, s) := s.take (4 + 8)
    let (name, s) := s.take 40
    let (bordereau_number, s) := s.take 13
    let (coupon_number, s) := s.take 8
    let (coupon_payment_date, s) := s.take 8
    let (country_stock_exchange_market, s) := s.take 30
    let (purchaseSaleRaw, s) := s.take 8
    let (nature, s) := s.take 24
    let (nominal_value, _) := s.take (12 + 3)
    match parseDate century (jsTrim purchaseSaleRaw) with
    | .error e => .error e
    | .ok purchase_sale_date =>
      .ok (.d010 (jsTrim order_number) (jsTrim bank_reference_number)
        (jsTrim customer_reference_number) (jsTrim securities_code_type)
        (jsTrim securities_code_value) (jsTrim method) (numOver number 10000)
        (jsNumber (jsTrim currency)) (jsNumber (jsTrim number_per_transaction_unit))
        (jsTrim quotation_currency) (numOver stock_exchange_rate 10000)
        (numOver exchange_rate 100000000) (jsTrim name) (jsTrim bordereau_number)
        (jsTrim coupon_number) (jsTrim coupon_payment_date)
        (jsTrim country_stock_exchange_market) purchase_sale_date (jsTrim nature)
        (numOver nominal_value 1000))
  else if t3 = "011" then
    let (order_number, s) := s.take 13
    let (bank_reference_number, s) := s.take 15
    let (customer_reference_number, s) := s.take 13
    let (securities_code_type, s) := s.take 2
    let (securities_code_value, s) := s.take 15
    let (number, s) := s.take (8 + 4)
    let (name, s) := s.take 40
    let (currency, s) := s.take 3
    let (amount, s) := s.take (8 + 6)
    let (typeRaw, s) := s.take 1
    let (foreign_tax_rate, s) := s.take (12 + 3)
    let (nature, s) := s.take 24
    let (coupon_number, s) := s.take 6
    let (dateRaw, s) := s.take 6
    let (exchange_rate, s) := s.take (4 + 8)
    let (currency_payment, s) := s.take 3
    let (nominal_value, _) := s.take (12 + 3)
    match matchAmountType (jsTrim typeRaw) with
    | .error e => .error e
    | .ok type =>
      match parseDate century (jsTrim dateRaw) with
      | .error e => .error e
      | .ok date =>
        .ok (.d011 (jsTrim order_number) (jsTrim bank_reference_number)
          (jsTrim customer_reference_number) (jsTrim securities_code_type)
          (jsTrim securities_code_value) (numOver number 10000) (jsTrim name)
          (jsTrim currency) (numOver amount 1000000) type (numOver foreign_tax_rate 1000)
          (jsTrim nature) (jsTrim coupon_number) date (numOver exchange_rate 100000000)
          (jsTrim currency_payment) (numOver nominal_value 1000))
  else .error .unknownStructuredCommunicationType

/-- A communication value: a plain string before merging and for
`unstructured` chains, or a decoded structured payload afterwards. -/
inductive Comm where
  | str (s : String)
  | mov (p : MovStructComm)
  | det (p : DetStructComm)
deriving DecidableEq

/-- The string a communication contributes to `a + b` concatenation.  Before
merging every communication is a `Comm.str`; a structured payload (which can
never occur there) would stringify as a plain object does. -/
def commText : Comm → String
  | .str s => s
  | .mov _ => "[object Object]"
  | .det _ => "[object Object]"

/-- `parseCommunicationMovement(line, type)`: `unstructured` is the identity,
`structured` decodes the payload, any other type value (`undefined` on a
record that never had a `communication_type`) hits the `default` and throws.
Calling it on a non-string (impossible for the records built here) models the
`TypeError` of running `StringStream` methods on a non-string. -/
def parseCommunicationMovement (century : Nat) (line : Comm) (type : Option CommType) :
    Except Err Comm :=
  match type with
  | some .unstructured => .ok line
  | some .structured =>
    match line with
    | .str s => (parseStructuredMovement century s).map .mov
    | _ => .error .typeError
  | none => .error .unknownMovementCommunicationType

/-- `parseCommunicationDetail(line, type)`: same shape as the movement-side
wrapper, with its own `default` throw. -/
def parseCommunicationDetail (century : Nat) (line : Comm) (type : Option CommType) :
    Except Err Comm :=
  match type with
  | some .unstructured => .ok line
  | some .structured =>
    match line with
    | .str s => (parseStructuredDetail century s).map .det
    | _ => .error .typeError
  | none => .error .unknownCommunicationType

structure HeaderAccount where
  name : String
  bic : String
  identification_number : String
deriving DecidableEq

/-- Header record 0 (`parseHeader`). -/
structure Header where
  record_identification : String
  date : String
  bank_identification_number : String
  application_code : String
  duplicate : Bool
  file_reference : String
  account : HeaderAccount
  external_application_code : String
  transaction_reference : String
  related_reference : String
  version : Option ℚ
deriving DecidableEq

/-- `parseHeader(stream)`: sequential fixed-width takes; the creation date is
the only field whose decoding can throw. -/
def parseHeader (century : Nat) (line : String) : Except Err Header :=
  let s := StringStream.mk line 0
  let (record_identification, s) := s.take 1
  let (dateRaw, s) := (s.skip 4).take 6
  match parseDate century dateRaw with
  | .error e => .error e
  | .ok date =>
    let (bank_identification_number, s) := s.take 3
    let (application_code, s) := s.take 2
    let (dup, s) := s.take 1
    let (file_reference, s) := (s.skip 7).take 10
    let (name, s) := s.take 26
    let (bic, s) := s.take 11
    let (identification_number, s) := s.take 11
    let (external_application_code, s) := (s.skip 1).take 5
    let (transaction_reference, s) := s.take 16
    let (related_reference, s) := s.take 16
    let (version, _) := (s.skip 7).take 1
    .ok { record_identification, date, bank_identification_number, application_code,
          duplicate := dup = "D", file_reference,
          account := { name := jsTrim name, bic := jsTrim bic, identification_number },
          external_application_code, transaction_reference := jsTrim transaction_reference,
          related_reference := jsTrim related_reference, version := jsNumber version }

/-- The `account` object of an old-balance record: two trimmed name fields
plus the spread of `parseAccount` (absent — `none` — when the structure
discriminant matched no `case`). -/
structure OldBalanceAccount where
  name : String
  description : String
  details : Option Account
deriving DecidableEq

/-- Data record 1, "old balance" (`parseOldBalance`). -/
structure OldBalance where
  record_identification : Option Char
  account : OldBalanceAccount
  sequence_number : String
  balance : Option ℚ
  date : String
  coda_sequence_number : String
deriving DecidableEq

/-- The old-balance `balance` field: `Number(line.slice(43, 58))` times the
sign of `line[42]` — the raw scaled integer is NOT divided by 1000 here. -/
def oldBalanceBalance (line : String) : Except Err (Option ℚ) :=
  match matchSign (jsCharAt line 42) with
  | .error e => .error e
  | .ok sgn => .ok (jsMul (jsNumber (jsSlice line 43 58)) sgn)

/-- `parseOldBalance(line)`: the balance sign `match` and the date decode are
the two possible throws, in that order. -/
def parseOldBalance (century : Nat) (line : String) : Except Err OldBalance :=
  match oldBalanceBalance line with
  | .error e => .error e
  | .ok balance =>
    match parseDate century (jsSlice line 58 64) with
    | .error e => .error e
    | .ok date =>
      .ok { record_identification := jsCharAt line 0,
            account := { name := jsTrim (jsSlice line 64 90),
                         description := jsTrim (jsSlice line 90 125),
                         details := parseAccount (jsNumberAt line 1) (jsSlice line 5 42) },
            sequence_number := jsSlice line 2 5,
            balance,
            date,
            coda_sequence_number := jsSlice line 125 128 }

structure CounterpartyAccount where
  number : String
  currency : String
deriving DecidableEq

structure Counterparty where
  account : CounterpartyAccount
  name : String
deriving DecidableEq

/-- An information record (data record 3, articles 1, 2 and 3 —
`parseAdditionalInformation31/32/33`).  Fields only some article shapes own
are wrapped in `Option` (`none` = the object has no such property); the
control fields `next_code` / `link_code` hold the raw `line[i]` character
(possibly `undefined`) and are deleted (`none`) by the cleanup pass. -/
structure InfoRec where
  record_identification : Option Char := none
  article_code : Option Char := none
  sequence : String := ""
  detail_sequence : String := ""
  reference_number : Option String := none
  transaction_code : Option TransactionCode := none
  communication_type : Option CommType := none
  communication : Comm := .str ""
  next_code : Option (Option Char) := none
  link_code : Option (Option Char) := none
deriving DecidableEq

/-- A movement record (data record 2, articles 1, 2 and 3 —
`parseMovement21/22/23`), with the same `Option` conventions as `InfoRec`.
`information` is the list the linking pass pushes onto (`none` until the
first push, like the absent property in the source). -/
structure MovementRec where
  record_identification : Option Char := none
  article_code : Option Char := none
  sequence : Option String := none
  detail_sequence : String := ""
  reference_number : Option String := none
  amount : Option (Option ℚ) := none
  value_date : Option (Option String) := none
  transaction_code : Option TransactionCode := none
  communication_type : Option CommType := none
  communication : Comm := .str ""
  entry_date : Option String := none
  sequence_number : Option String := none
  globalisation_code : Option (Option Char) := none
  next_code : Option (Option Char) := none
  link_code : Option (Option Char) := none
  customer_reference : Option String := none
  bic : Option String := none
  r_transaction_type : Option String := none
  r_reason : Option String := none
  category_purpose : Option String := none
  purpose : Option String := none
  counterparty : Option Counterparty := none
  information : Option (List InfoRec) := none
deriving DecidableEq

/-- The movement amount of a 2.1 record: the source computes the signed raw
value twice inside a comma expression `(a, a) / 1_000`, which evaluates to
the second operand divided by 1000. -/
def movementAmount (line : String) : Option ℚ :=
  jsDiv (jsMul (jsNumber (jsSlice line 32 47))
    (if jsCharAt line 31 = some '0' then 1 else -1)) 1000

/-- `parseMovement21(line)`: value date (unless the `000000` sentinel maps it
to `null`), communication type and entry date are the possible throws, in
field order. -/
def parseMovement21 (century : Nat) (line : String) : Except Err MovementRec :=
  match (if jsSlice line 47 53 = "000000" then .ok none
         else (parseDate century (jsSlice line 47 53)).map some : Except Err (Option String)) with
  | .error e => .error e
  | .ok value_date =>
    match matchCommType (jsCharAt line 61) with
    | .error e => .error e
    | .ok communication_type =>
      match parseDate century (jsSlice line 115 121) with
      | .error e => .error e
      | .ok entry_date =>
        .ok { record_identification := jsCharAt line 0,
              article_code := jsCharAt line 1,
              sequence := some (jsSlice line 2 6),
              detail_sequence := jsSlice line 6 10,
              reference_number := some (jsTrim (jsSlice line 10 31)),
              amount := some (movementAmount line),
              value_date := some value_date,
              transaction_code := some (parseTransactionCode (jsSlice line 53 61)),
              communication_type := some communication_type,
              communication := .str (jsSlice line 62 115),
              entry_date := some entry_date,
              sequence_number := some (jsSlice line 121 124),
              globalisation_code := some (jsCharAt line 124),
              next_code := some (jsCharAt line 125),
              link_code := some (jsCharAt line 127) }

/-- `parseMovement22(line)`: `line[112].trim()` raises a `TypeError` when
`line[112]` is `undefined`; everything else is total. -/
def parseMovement22 (line : String) : Except Err MovementRec :=
  match jsCharAt line 112 with
  | none => .error .typeError
  | some r_transaction_type_char =>
    .ok { record_identification := jsCharAt line 0,
          article_code := jsCharAt line 1,
          sequence_number := some (jsSlice line 2 6),
          detail_sequence := jsSlice line 6 10,
          communication := .str (jsSlice line 10 63),
          customer_reference := some (jsTrim (jsSlice line 63 98)),
          bic := some (jsTrim (jsSlice line 98 109)),
          r_transaction_type := some (jsTrim (String.mk [r_transaction_type_char])),
          r_reason := some (jsTrim (jsSlice line 113 117)),
          category_purpose := some (jsTrim (jsSlice line 117 121)),
          purpose := some (jsTrim (jsSlice line 121 125)),
          next_code := some (jsCharAt line 125),
          link_code := some (jsCharAt line 127) }

/-- `parseMovement23(line)`: splits the counterparty account field on
whitespace runs (`?? []` and the `= ''` destructuring defaults give empty
strings for missing pieces); total. -/
def parseMovement23 (line : String) : MovementRec :=
  let toks := jsSplitWs (jsTrim (jsSlice line 10 47))
  let accountNumber := (toks.get? 0).getD ""
  let accountCurrency := (toks.get? 1).getD ""
  { record_identification := jsCharAt line 0,
    article_code := jsCharAt line 1,
    sequence := some (jsSlice line 2 6),
    detail_sequence := jsSlice line 6 10,
    counterparty := some { account := { number := accountNumber, currency := accountCurrency },
                           name := jsTrim (jsSlice line 47 82) },
    communication := .str (jsSlice line 82 115),
    next_code := some (jsCharAt line 125),
    link_code := some (jsCharAt line 127) }

/-- `parseAdditionalInformation31(line)`: the communication-type `match` is
the only possible throw. -/
def parseAdditionalInformation31 (line : String) : Except Err InfoRec :=
  match matchCommType (jsCharAt line 39) with
  | .error e => .error e
  | .ok communication_type =>
    .ok { record_identification := jsCharAt line 0,
          article_code := jsCharAt line 1,
          sequence := jsSlice line 2 6,
          detail_sequence := jsSlice line 6 10,
          reference_number := some (jsTrim (jsSlice line 10 31)),
          transaction_code := some (parseTransactionCode (jsSlice line 31 39)),
          communication_type := some communication_type,
          communication := .str (jsSlice line 40 113),
          next_code := some (jsCharAt line 125),
          link_code := some (jsCharAt line 127) }

/-- `parseAdditionalInformation32(line)`: total. -/
def parseAdditionalInformation32 (line : String) : InfoRec :=
  { record_identification := jsCharAt line 0,
    article_code := jsCharAt line 1,
    sequence := jsSlice line 2 6,
    detail_sequence := jsSlice line 6 10,
    communication := .str (jsSlice line 10 115),
    next_code := some (jsCharAt line 125),
    link_code := some (jsCharAt line 127) }

/-- `parseAdditionalInformation33(line)`: total. -/
def parseAdditionalInformation33 (line : String) : InfoRec :=
  { record_identification := jsCharAt line 0,
    article_code := jsCharAt line 1,
    sequence := jsSlice line 2 6,
    detail_sequence := jsSlice line 6 10,
    communication := .str (jsSlice line 10 100),
    next_code := some (jsCharAt line 125),
    link_code := some (jsCharAt line 127) }

/-- Data record 8, "new balance" (`parseNewBalance`).  `account` is `none`
for the literal `{}` produced when no old-balance record has been seen. -/
structure NewBalance where
  record_identification : Option Char
  sequence_number : String
  account : Option Account
  balance : Option ℚ
  date : String
  link_code : Option Char
deriving DecidableEq

/-- The new-balance `balance` field: raw value times sign, divided by 1000. -/
def newBalanceBalance (line : String) : Except Err (Option ℚ) :=
  match matchSign (jsCharAt line 41) with
  | .error e => .error e
  | .ok sgn => .ok (jsDiv (jsMul (jsNumber (jsSlice line 42 57)) sgn) 1000)

/-- `parseNewBalance(line, accountStructureData)`: when the carried
discriminant is `null` the account is the empty object, otherwise the spread
of `parseAccount`; the balance sign `match` and the date decode are the two
possible throws, in that order. -/
def parseNewBalance (century : Nat) (line : String) (accountStructureData : Option (Option ℚ)) :
    Except Err NewBalance :=
  match newBalanceBalance line with
  | .error e => .error e
  | .ok balance =>
    match parseDate century (jsSlice line 57 63) with
    | .error e => .error e
    | .ok date =>
      .ok { record_identification := jsCharAt line 0,
            sequence_number := jsSlice line 1 4,
            account := match accountStructureData with
                       | none => none
                       | some v => parseAccount v (jsSlice line 4 41),
            balance,
            date,
            link_code := jsCharAt line 127 }

/-- Data record 4, "free communication" (`parseFreeCommunication`); total. -/
structure FreeComm where
  record_identification : Option Char := none
  sequence : String := ""
  detail_sequence : String := ""
  text : String := ""
  link_code : Option (Option Char) := none
deriving DecidableEq

def parseFreeCommunication (line : String) : FreeComm :=
  { record_identification := jsCharAt line 0,
    sequence := jsSlice line 2 6,
    detail_sequence := jsSlice line 6 10,
    text := jsTrim (jsSlice line 32 112),
    link_code := some (jsCharAt line 127) }

/-- Trailer record 9 (`parseTrailer`); total.  Both totals are divided by
1000 and carry no sign character. -/
structure Trailer where
  record_identification : Option Char
  number_of_records : Option ℚ
  debit_amount : Option ℚ
  credit_amount : Option ℚ
deriving DecidableEq

def parseTrailer (line : String) : Trailer :=
  { record_identification := jsCharAt line 0,
    number_of_records := jsNumber (jsSlice line 16 22),
    debit_amount := jsDiv (jsNumber (jsSlice line 22 37)) 1000,
    credit_amount := jsDiv (jsNumber (jsSlice line 37 52)) 1000 }

/-- `Object.assign(movement, cont, { communication: movement.communication +
cont.communication })` on movement records: fields the continuation owns
overwrite the root's, fields it lacks are kept, and the communication buffer
is the string concatenation. -/
def assignMov (root cont : MovementRec) : MovementRec :=
  { record_identification := cont.record_identification,
    article_code := cont.article_code,
    sequence := cont.sequence <|> root.sequence,
    detail_sequence := cont.detail_sequence,
    reference_number := cont.reference_number <|> root.reference_number,
    amount := cont.amount <|> root.amount,
    value_date := cont.value_date <|> root.value_date,
    transaction_code := cont.transaction_code <|> root.transaction_code,
    communication_type := cont.communication_type <|> root.communication_type,
    communication := .str (commText root.communication ++ commText cont.communication),
    entry_date := cont.entry_date <|> root.entry_date,
    sequence_number := cont.sequence_number <|> root.sequence_number,
    globalisation_code := cont.globalisation_code <|> root.globalisation_code,
    next_code := cont.next_code <|> root.next_code,
    link_code := cont.link_code <|> root.link_code,
    customer_reference := cont.customer_reference <|> root.customer_reference,
    bic := cont.bic <|> root.bic,
    r_transaction_type := cont.r_transaction_type <|> root.r_transaction_type,
    r_reason := cont.r_reason <|> root.r_reason,
    category_purpose := cont.category_purpose <|> root.category_purpose,
    purpose := cont.purpose <|> root.purpose,
    counterparty := cont.counterparty <|> root.counterparty,
    information := cont.information <|> root.information }

/-- The `while (movement.next_code === '1')` loop: as long as the (merged)
root's `next_code` is `'1'`, absorb the next record; if none exists the input
is truncated and the loop stops silently. -/
def consumeMovChain (root : MovementRec) : List MovementRec → MovementRec × List MovementRec
  | [] => (root, [])
  | r :: rs =>
    if root.next_code = some (some '1') then consumeMovChain (assignMov root r) rs
    else (root, r :: rs)

lemma consumeMovChain_snd_length :
    ∀ (rest : List MovementRec) (root : MovementRec),
      (consumeMovChain root rest).2.length ≤ rest.length := by
  intro rest
  induction rest with
  | nil => intro root; simp [consumeMovChain]
  | cons r rs ih =>
    intro root
    by_cases h : root.next_code = some (some '1')
    · simpa [consumeMovChain, h] using Nat.le_succ_of_le (ih (assignMov root r))
    · simp [consumeMovChain, h]

/-- The `if typeof movement.communication === 'string'` normalisation. -/
def normalizeMovComm (m : MovementRec) : MovementRec :=
  match m.communication with
  | .str s => { m with communication := .str (jsNormalize s) }
  | _ => m

/-- The movement merge pass: article-1 records start a chain, absorb
continuations, have their communication decoded and normalised; other
records are only normalised.  Records absorbed into a chain are dropped from
the output (in the source: collected in `drop` and spliced out by object
identity afterwards).  The recursion is driven by a fuel bounded by the list
length (each step consumes at least one record), keeping the function
evaluable by the kernel. -/
def mergeMovementsAux (century : Nat) : Nat → List MovementRec → Except Err (List MovementRec)
  | _, [] => .ok []
  | 0, _ :: _ => .ok []
  | fuel + 1, m :: ms =>
    if m.article_code = some '1' then
      let pr := consumeMovChain m ms
      match parseCommunicationMovement century pr.1.communication pr.1.communication_type with
      | .error e => .error e
      | .ok comm =>
        match mergeMovementsAux century fuel pr.2 with
        | .error e => .error e
        | .ok tail => .ok (normalizeMovComm { pr.1 with communication := comm } :: tail)
    else
      match mergeMovementsAux century fuel ms with
      | .error e => .error e
      | .ok tail => .ok (normalizeMovComm m :: tail)

def mergeMovements (century : Nat) (l : List MovementRec) : Except Err (List MovementRec) :=
  mergeMovementsAux century l.length l

/-- `Object.assign` on information records, communication concatenated. -/
def assignInfo (root cont : InfoRec) : InfoRec :=
  { record_identification := cont.record_identification,
    article_code := cont.article_code,
    sequence := cont.sequence,
    detail_sequence := cont.detail_sequence,
    reference_number := cont.reference_number <|> root.reference_number,
    transaction_code := cont.transaction_code <|> root.transaction_code,
    communication_type := cont.communication_type <|> root.communication_type,
    communication := .str (commText root.communication ++ commText cont.communication),
    next_code := cont.next_code <|> root.next_code,
    link_code := cont.link_code <|> root.link_code }

/-- The `while (information.next_code === '1')` loop. -/
def consumeInfoChain (root : InfoRec) : List InfoRec → InfoRec × List InfoRec
  | [] => (root, [])
  | r :: rs =>
    if root.next_code = some (some '1') then consumeInfoChain (assignInfo root r) rs
    else (root, r :: rs)

lemma consumeInfoChain_snd_length :
    ∀ (rest : List InfoRec) (root : InfoRec),
      (consumeInfoChain root rest).2.length ≤ rest.length := by
  intro rest
  induction rest with
  | nil => intro root; simp [consumeInfoChain]
  | cons r rs ih =>
    intro root
    by_cases h : root.next_code = some (some '1')
    · simpa [consumeInfoChain, h] using Nat.le_succ_of_le (ih (assignInfo root r))
    · simp [consumeInfoChain, h]

def normalizeInfoComm (x : InfoRec) : InfoRec :=
  match x.communication with
  | .str s => { x with communication := .str (jsNormalize s) }
  | _ => x

/-- The information merge pass, the analogue of `mergeMovements` driven by
`parseCommunicationDetail` (same fuel pattern). -/
def mergeInformationAux (century : Nat) : Nat → List InfoRec → Except Err (List InfoRec)
  | _, [] => .ok []
  | 0, _ :: _ => .ok []
  | fuel + 1, x :: xs =>
    if x.article_code = some '1' then
      let pr := consumeInfoChain x xs
      match parseCommunicationDetail century pr.1.communication pr.1.communication_type with
      | .error e => .error e
      | .ok comm =>
        match mergeInformationAux century fuel pr.2 with
        | .error e => .error e
        | .ok tail => .ok (normalizeInfoComm { pr.1 with communication := comm } :: tail)
    else
      match mergeInformationAux century fuel xs with
      | .error e => .error e
      | .ok tail => .ok (normalizeInfoComm x :: tail)

def mergeInformation (century : Nat) (l : List InfoRec) : Except Err (List InfoRec) :=
  mergeInformationAux century l.length l

/-- `Object.assign` on free-communication records, text concatenated. -/
def assignFree (root cont : FreeComm) : FreeComm :=
  { record_identification := cont.record_identification,
    sequence := cont.sequence,
    detail_sequence := cont.detail_sequence,
    text := root.text ++ cont.text,
    link_code := cont.link_code <|> root.link_code }

/-- The `while (communication.link_code === '1')` loop. -/
def consumeFreeChain (root : FreeComm) : List FreeComm → FreeComm × List FreeComm
  | [] => (root, [])
  | r :: rs =>
    if root.link_code = some (some '1') then consumeFreeChain (assignFree root r) rs
    else (root, r :: rs)

lemma consumeFreeChain_snd_length :
    ∀ (rest : List FreeComm) (root : FreeComm),
      (consumeFreeChain root rest).2.length ≤ rest.length := by
  intro rest
  induction rest with
  | nil => intro root; simp [consumeFreeChain]
  | cons r rs ih =>
    intro root
    by_cases h : root.link_code = some (some '1')
    · simpa [consumeFreeChain, h] using Nat.le_succ_of_le (ih (assignFree root r))
    · simp [consumeFreeChain, h]

/-- The free-communication merge pass: every record starts a chain (no
article distinction); the accumulated text is normalised unconditionally
(same fuel pattern). -/
def mergeFreeAux : Nat → List FreeComm → List FreeComm
  | _, [] => []
  | 0, _ :: _ => []
  | fuel + 1, f :: fs =>
    let pr := consumeFreeChain f fs
    { pr.1 with text := jsNormalize pr.1.text } :: mergeFreeAux fuel pr.2

def mergeFree (l : List FreeComm) : List FreeComm :=
  mergeFreeAux l.length l

/-- The cleanup pass: `delete record.next_code; delete record.link_code`. -/
def cleanupMov (m : MovementRec) : MovementRec :=
  { m with next_code := none, link_code := none }

def cleanupInfo (x : InfoRec) : InfoRec :=
  { x with next_code := none, link_code := none }

def cleanupFree (f : FreeComm) : FreeComm :=
  { f with link_code := none }

/-- The linking key: `movement.sequence === information.sequence &&
movement.reference_number === information.reference_number` (JS `===`, so
two absent `reference_number` properties compare equal). -/
def keyMatch (m : MovementRec) (x : InfoRec) : Bool :=
  m.sequence == some x.sequence && m.reference_number == x.reference_number

/-- `movement.information = movement.information ?? []; push(information)`. -/
def pushInfo (m : MovementRec) (x : InfoRec) : MovementRec :=
  { m with information := some ((m.information.getD []) ++ [x]) }

/-- The body of the inner linking loop for one (movement, information) pair:
append on a key match, leave the movement alone otherwise. -/
def linkStep (m : MovementRec) (x : InfoRec) : MovementRec :=
  if keyMatch m x then pushInfo m x else m

/-- One iteration of the outer linking loop over one information record:
append it to every movement whose key matches, and record one `drop` entry
per match. -/
def linkScan (acc : List MovementRec × List InfoRec) (x : InfoRec) :
    List MovementRec × List InfoRec :=
  (acc.1.map (fun m => if keyMatch m x then pushInfo m x else m),
   acc.2 ++ (acc.1.filter (fun m => keyMatch m x)).map (fun _ => x))

/-- `information.splice(information.indexOf(record), 1)`: remove the first
occurrence when present; `indexOf` of a missing element is `-1` and
`splice(-1, 1)` removes the LAST element (nothing on an empty array). -/
def spliceRemove (l : List InfoRec) (d : InfoRec) : List InfoRec :=
  if l.contains d then l.erase d else l.dropLast

/-- The final pass of `parse`: move information records into the movements
they belong to, then splice every dropped entry out of the top-level list. -/
def linkInformation (movements : List MovementRec) (information : List InfoRec) :
    List MovementRec × List InfoRec :=
  let pr := information.foldl linkScan (movements, [])
  (pr.1, pr.2.foldl spliceRemove information)

/-- The mutable `result` object of `parse` during the line loop, plus the
`state.accountStructureData` cell (`none` = `null`; `some none` = `NaN`). -/
structure ParseState where
  header : Option Header := none
  balance_old : Option OldBalance := none
  balance_new : Option NewBalance := none
  movements : List MovementRec := []
  information : List InfoRec := []
  free_communications : List FreeComm := []
  trailer : Option Trailer := none
  accountStructureData : Option (Option ℚ) := none
deriving DecidableEq

def initState : ParseState := {}

/-- One iteration of the line loop of `parse`: dispatch on the leading
character; a `2`/`3` line whose article code is unknown is silently skipped;
an unknown leading character throws `Unknown record type`. -/
def processLine (century : Nat) (st : ParseState) (line : String) : Except Err ParseState :=
  match jsCharAt line 0 with
  | some '0' =>
    match parseHeader century line with
    | .error e => .error e
    | .ok h => .ok { st with header := some h }
  | some '1' =>
    let st := { st with accountStructureData := some (jsNumberAt line 1) }
    match parseOldBalance century line with
    | .error e => .error e
    | .ok ob => .ok { st with balance_old := some ob }
  | some '2' =>
    if jsStartsWith line "21" then
      match parseMovement21 century line with
      | .error e => .error e
      | .ok m => .ok { st with movements := st.movements ++ [m] }
    else if jsStartsWith line "22" then
      match parseMovement22 line with
      | .error e => .error e
      | .ok m => .ok { st with movements := st.movements ++ [m] }
    else if jsStartsWith line "23" then
      .ok { st with movements := st.movements ++ [parseMovement23 line] }
    else .ok st
  | some '3' =>
    if jsStartsWith line "31" then
      match parseAdditionalInformation31 line with
      | .error e => .error e
      | .ok x => .ok { st with information := st.information ++ [x] }
    else if jsStartsWith line "32" then
      .ok { st with information := st.information ++ [parseAdditionalInformation32 line] }
    else if jsStartsWith line "33" then
      .ok { st with information := st.information ++ [parseAdditionalInformation33 line] }
    else .ok st
  | some '8' =>
    match parseNewBalance century line st.accountStructureData with
    | .error e => .error e
    | .ok nb => .ok { st with balance_new := some nb }
  | some '4' =>
    .ok { st with free_communications := st.free_communications ++ [parseFreeCommunication line] }
  | some '9' =>
    .ok { st with trailer := some (parseTrailer line) }
  | _ => .error .unknownRecordType

/-- The decoded document returned by `parse` (`balance.old` / `balance.new`
flattened to two fields; `none` models the initial `{}` placeholders). -/
structure Doc where
  header : Option Header
  balance_old : Option OldBalance
  balance_new : Option NewBalance
  movements : List MovementRec
  information : List InfoRec
  free_communications : List FreeComm
  trailer : Option Trailer
deriving DecidableEq

/-- `parse(coda)` with the ambient clock's century made explicit: trim and
split the text, run the line loop, merge the three chain kinds, clean up the
control fields, link information records into movements. -/
def parseWithCentury (century : Nat) (coda : String) : Except Err Doc :=
  let lines := jsSplitNewline (jsTrim coda)
  match lines.foldlM (processLine century) initState with
  | .error e => .error e
  | .ok st =>
    match mergeMovements century st.movements with
    | .error e => .error e
    | .ok movements =>
      match mergeInformation century st.information with
      | .error e => .error e
      | .ok information =>
        let free := (mergeFree st.free_communications).map cleanupFree
        let movements := movements.map cleanupMov
        let information := information.map cleanupInfo
        let pr := linkInformation movements information
        .ok { header := st.header, balance_old := st.balance_old,
              balance_new := st.balance_new, movements := pr.1, information := pr.2,
              free_communications := free, trailer := st.trailer }

/-- The exported `parse`, as a function of the current system year (read by
`new Date().getFullYear()` inside the date decoder) and the input text. -/
def parse (currentYear : Nat) (coda : String) : Except Err Doc :=
  parseWithCentury (currentYear / 100) coda

instance {ε α : Type} [DecidableEq ε] [DecidableEq α] : DecidableEq (Except ε α) := fun x y =>
  match x, y with
  | .ok a, .ok b =>
    if h : a = b then .isTrue (by rw [h]) else .isFalse (by simp [h])
  | .error a, .error b =>
    if h : a = b then .isTrue (by rw [h]) else .isFalse (by simp [h])
  | .ok _, .error _ => .isFalse (by simp)
  | .error _, .ok _ => .isFalse (by simp)

/-! ### Generic facts about digit strings and `Number` -/

/-- A non-empty all-digit string (the shape of a raw magnitude field). -/
def isDigitString (s : String) : Bool :=
  !s.data.isEmpty && s.data.all Char.isDigit

lemma toNat_facts_of_wsChar {c : Char} (h : wsChar c = true) :
    c.toNat = 32 ∨ c.toNat = 9 ∨ c.toNat = 10 ∨ c.toNat = 13 ∨ c.toNat = 11 ∨ c.toNat = 12 := by
  simp only [wsChar, Bool.or_eq_true, decide_eq_true_eq] at h
  rcases h with ((((h | h) | h) | h) | h) | h
  · exact Or.inl (by rw [h]; rfl)
  · exact Or.inr (Or.inl (by rw [h]; rfl))
  · exact Or.inr (Or.inr (Or.inl (by rw [h]; rfl)))
  · exact Or.inr (Or.inr (Or.inr (Or.inl (by rw [h]; rfl))))
  · exact Or.inr (Or.inr (Or.inr (Or.inr (Or.inl h))))
  · exact Or.inr (Or.inr (Or.inr (Or.inr (Or.inr h))))

lemma wsChar_eq_false_of_isDigit {c : Char} (h : c.isDigit = true) : wsChar c = false := by
  have hd : 48 ≤ c.toNat ∧ c.toNat ≤ 57 := by
    simp only [Char.isDigit, Bool.and_eq_true, decide_eq_true_eq] at h
    exact ⟨UInt32.le_def.mp h.1, UInt32.le_def.mp h.2⟩
  rcases Bool.eq_false_or_eq_true (wsChar c) with ht | hf
  · rcases toNat_facts_of_wsChar ht with h1 | h1 | h1 | h1 | h1 | h1 <;> omega
  · exact hf

lemma dropWhile_wsChar_of_digits {l : List Char} (h : l.all Char.isDigit = true) :
    l.dropWhile wsChar = l := by
  cases l with
  | nil => rfl
  | cons c cs =>
    simp only [List.all_cons, Bool.and_eq_true] at h
    exact List.dropWhile_cons_of_neg (by simp [wsChar_eq_false_of_isDigit h.1])

lemma jsTrim_of_digits {s : String} (h : s.data.all Char.isDigit = true) : jsTrim s = s := by
  obtain ⟨l⟩ := s
  simp only [jsTrim]
  rw [dropWhile_wsChar_of_digits h, dropWhile_wsChar_of_digits (by simpa using h),
    List.reverse_reverse]

/-- On a non-empty all-digit string, `Number` is exactly the digit value. -/
lemma jsNumber_of_digits {s : String} (h : isDigitString s = true) :
    jsNumber s = some ((digitsVal s.data : ℕ) : ℚ) := by
  simp only [isDigitString, Bool.and_eq_true] at h
  have h2 : s.data.all Char.isDigit = true := h.2
  have h1 : s.data ≠ [] := by
    intro hnil
    have := h.1
    rw [hnil] at this
    simp [List.isEmpty] at this
  simp only [jsNumber, jsTrim_of_digits h2]
  rw [if_neg h1, if_pos h2]

/-! ### Claim C1 -/

/-- The old-balance line of the repository's own test suite: raw magnitude
`000000004004100`, sign `0`. -/
def c1OldLine : String :=
  "10155001548226815 EUR0BE                  0000000004004100241214CODELICIOUS               PROFESSIONAL ACCOUNT               255"

/-- Claim C1, counterexample: the old balance is one of the signed
fixed-point amount fields listed by the claim, but the decoder stores the
raw 15-digit magnitude times the sign WITHOUT dividing by 1000: on the test
line with magnitude `000000004004100` (value 4004100) and credit sign, the
stored balance is 4004100, not the claimed `4004100 / 1000 * 1`. -/
theorem c1_old_balance_counterexample :
    jsSlice c1OldLine 43 58 = "000000004004100" ∧
    jsCharAt c1OldLine 42 = some '0' ∧
    oldBalanceBalance c1OldLine = .ok (some 4004100) ∧
    (4004100 : ℚ) ≠ 4004100 / 1000 * 1 := by
  refine ⟨by decide, by decide, ?_, by norm_num⟩
  unfold oldBalanceBalance
  rw [show jsCharAt c1OldLine 42 = some '0' by decide]
  rw [show matchSign (some '0') = .ok 1 from rfl]
  rw [jsNumber_of_digits (by decide)]
  rw [show digitsVal (jsSlice c1OldLine 43 58).data = 4004100 by decide]
  simp [jsMul]

set_option maxRecDepth 8192 in
set_option maxHeartbeats 1000000 in
/-- Claim C1 (amended): the signed fixed-point amount fields scale as the
claim says, with two corrections forced by the code: the OLD balance is
stored as the raw 15-digit magnitude times the sign, NOT divided by 1000,
and the trailer totals carry no adjacent sign character (they are stored as
the raw magnitude divided by 1000, with no sign factor).  New balance,
movement amount and structured-detail (`006`) amount follow the claimed
`magnitude / 1000 × (sign = '0' ? +1 : -1)` rule. -/
theorem c1_amount_scaling (century : Nat) (l : String) (m n : ℕ) :
    (isDigitString (jsSlice l 32 47) = true → digitsVal (jsSlice l 32 47).data = m →
      (jsCharAt l 31 = some '0' → movementAmount l = some ((m : ℚ) / 1000)) ∧
      (jsCharAt l 31 = some '1' → movementAmount l = some (-((m : ℚ) / 1000)))) ∧
    (isDigitString (jsSlice l 42 57) = true → digitsVal (jsSlice l 42 57).data = m →
      (jsCharAt l 41 = some '0' → newBalanceBalance l = .ok (some ((m : ℚ) / 1000))) ∧
      (jsCharAt l 41 = some '1' → newBalanceBalance l = .ok (some (-((m : ℚ) / 1000))))) ∧
    (isDigitString (jsSlice l 43 58) = true → digitsVal (jsSlice l 43 58).data = m →
      (jsCharAt l 42 = some '0' → oldBalanceBalance l = .ok (some (m : ℚ))) ∧
      (jsCharAt l 42 = some '1' → oldBalanceBalance l = .ok (some (-(m : ℚ))))) ∧
    (isDigitString (jsSlice l 22 37) = true → digitsVal (jsSlice l 22 37).data = m →
      isDigitString (jsSlice l 37 52) = true → digitsVal (jsSlice l 37 52).data = n →
      (parseTrailer l).debit_amount = some ((m : ℚ) / 1000) ∧
      (parseTrailer l).credit_amount = some ((n : ℚ) / 1000)) ∧
    (jsSlice l 0 3 = "006" → isDigitString (jsSlice l 36 51) = true →
      digitsVal (jsSlice l 36 51).data = m →
      (jsSlice l 51 52 = "0" → parseStructuredDetail century l =
        .ok (.d006 (jsTrim (jsSlice l 3 33)) (jsTrim (jsSlice l 33 36))
          (some ((m : ℚ) / 1000)) (jsNumber (jsTrim (jsSlice l 52 55))))) ∧
      (jsSlice l 51 52 = "1" → parseStructuredDetail century l =
        .ok (.d006 (jsTrim (jsSlice l 3 33)) (jsTrim (jsSlice l 33 36))
          (some (-((m : ℚ) / 1000))) (jsNumber (jsTrim (jsSlice l 52 55)))))) := by
  refine ⟨?_, ?_, ?_, ?_, ?_⟩
  · intro hdig hval
    constructor <;> intro hsgn <;>
      rw [movementAmount, hsgn, jsNumber_of_digits hdig, hval] <;>
      simp [jsMul, jsDiv, neg_div]
  · intro hdig hval
    constructor <;> intro hsgn
    · rw [newBalanceBalance, hsgn, show matchSign (some '0') = .ok 1 from rfl,
        jsNumber_of_digits hdig, hval]
      simp [jsMul, jsDiv]
    · rw [newBalanceBalance, hsgn, show matchSign (some '1') = .ok (-1) from rfl,
        jsNumber_of_digits hdig, hval]
      simp [jsMul, jsDiv, neg_div]
  · intro hdig hval
    constructor <;> intro hsgn
    · rw [oldBalanceBalance, hsgn, show matchSign (some '0') = .ok 1 from rfl,
        jsNumber_of_digits hdig, hval]
      simp [jsMul]
    · rw [oldBalanceBalance, hsgn, show matchSign (some '1') = .ok (-1) from rfl,
        jsNumber_of_digits hdig, hval]
      simp [jsMul]
  · intro hdig hval hdig2 hval2
    constructor
    · simp only [parseTrailer]
      rw [jsNumber_of_digits hdig, hval]
      simp [jsDiv]
    · simp only [parseTrailer]
      rw [jsNumber_of_digits hdig2, hval2]
      simp [jsDiv]
  · intro h006 hdig hval
    constructor <;> intro hsgn
    · simp only [parseStructuredDetail, StringStream.take]
      norm_num
      rw [h006, if_neg (by decide), if_neg (by decide), if_pos rfl, hsgn,
        show matchSignStr "0" = .ok 1 from rfl, jsNumber_of_digits hdig, hval]
      simp [jsMul, jsDiv]
    · simp only [parseStructuredDetail, StringStream.take]
      norm_num
      rw [h006, if_neg (by decide), if_neg (by decide), if_pos rfl, hsgn,
        show matchSignStr "1" = .ok (-1) from rfl, jsNumber_of_digits hdig, hval]
      simp [jsMul, jsDiv, neg_div]

def c1MovLine : String :=
  "21000100000001200002835        0000000001767820251214001120000112/4554/46812   813                                 25121421401 0"

def c1NewLine : String :=
  "8225001548226815 EUR0BE                  1000000500012100120515                                                                0"

def c1TrailerLine : String :=
  "9               000015000000016837520000000003967220                                                                           1"

def c1DetailLine : String :=
  "006DETAIL AMOUNT DESCRIPTION     EUR0000000012345671000"

/-- Witness for `c1_amount_scaling` on concrete inputs (the repository's own
test lines plus a synthetic `006` detail payload with a debit sign). -/
theorem c1_amount_scaling_witness :
    movementAmount c1MovLine = some (1767820 / 1000 : ℚ) ∧
    newBalanceBalance c1NewLine = .ok (some (-(500012100 / 1000) : ℚ)) ∧
    oldBalanceBalance c1OldLine = .ok (some (4004100 : ℚ)) ∧
    (parseTrailer c1TrailerLine).debit_amount = some (16837520 / 1000 : ℚ) ∧
    (parseTrailer c1TrailerLine).credit_amount = some (3967220 / 1000 : ℚ) ∧
    parseStructuredDetail 20 c1DetailLine =
      .ok (.d006 "DETAIL AMOUNT DESCRIPTION" "EUR" (some (-(1234567 / 1000) : ℚ))
        (some 0)) := by
  refine ⟨?_, ?_, ?_, ?_, ?_, ?_⟩
  · exact (((c1_amount_scaling 20 c1MovLine 1767820 0).1 (by decide) (by decide)).1
      (by decide)).trans (by norm_num)
  · exact (((c1_amount_scaling 20 c1NewLine 500012100 0).2.1 (by decide) (by decide)).2
      (by decide)).trans (by norm_num)
  · exact (((c1_amount_scaling 20 c1OldLine 4004100 0).2.2.1 (by decide) (by decide)).1
      (by decide)).trans (by norm_num)
  · exact (((c1_amount_scaling 20 c1TrailerLine 16837520 3967220).2.2.2.1 (by decide)
      (by decide) (by decide) (by decide)).1).trans (by norm_num)
  · exact (((c1_amount_scaling 20 c1TrailerLine 16837520 3967220).2.2.2.1 (by decide)
      (by decide) (by decide) (by decide)).2).trans (by norm_num)
  · refine (((c1_amount_scaling 20 c1DetailLine 1234567 0).2.2.2.2 (by decide) (by decide)
      (by decide)).2 (by decide)).trans ?_
    simp only [Except.ok.injEq, DetStructComm.d006.injEq]
    refine ⟨by decide, by decide, by norm_num, ?_⟩
    rw [show jsTrim (jsSlice c1DetailLine 52 55) = "000" by decide]
    rw [show jsNumber "000" = some ((digitsVal "000".data : ℕ) : ℚ) from
      jsNumber_of_digits (by decide)]
    norm_num [digitsVal, show '0'.toNat = 48 from rfl]

/-! ### Claim C2 -/

/-- A 2.1 movement line whose entry-date field (columns 115-121) is the
`000000` sentinel. -/
def c2MovLine : String :=
  "21000100000001200002835        0000000001767820251214001120000112/4554/46812   813                                 00000021401 0"

/-- Claim C2, counterexample: the `000000` sentinel is only intercepted for
the movement value date.  The entry-date field of this line is `000000`, yet
the decoded record stores the calendar-date value the date decoder builds
(`"2000-00-00"` under century 20) rather than the explicit absent value; the
date decoder itself maps `"000000"` to a date, never to an absent value. -/
theorem c2_entry_date_counterexample :
    jsSlice c2MovLine 115 121 = "000000" ∧
    (parseMovement21 20 c2MovLine).map MovementRec.entry_date = .ok (some "2000-00-00") ∧
    parseDate 20 "000000" = .ok "2000-00-00" := by
  refine ⟨by decide, by decide, by decide⟩

/-- Claim C2 (amended): only the movement value date receives the sentinel
treatment — `000000` there decodes to the explicit absent value (`null`);
every other DDMMYY field hands `000000` to the date decoder unchanged, which
returns a (non-absent) date value built from the all-zero day, month and
year. -/
theorem c2_date_sentinel (century : Nat) (l : String) (r : MovementRec) :
    (jsSlice l 47 53 = "000000" → parseMovement21 century l = .ok r →
      r.value_date = some none) ∧
    parseDate century "000000" = .ok (Nat.repr century ++ "00-00-00") := by
  constructor
  · intro h047 hok
    rw [parseMovement21, h047, if_pos rfl] at hok
    split at hok
    · exact absurd hok (by simp)
    · rename_i vd hvd
      injection hvd with hvd
      split at hok
      · exact absurd hok (by simp)
      · split at hok
        · exact absurd hok (by simp)
        · injection hok with hok
          subst hok
          simp [← hvd]
  · show parseDate century "000000" = _
    rw [parseDate]
    simp only [StringStream.take]
    rw [show (("000000" : String).length = 6) from rfl]
    norm_num
    rw [String.append_assoc, String.append_assoc, String.append_assoc,
      String.append_assoc]
    rfl

/-- A 2.1 movement line whose value-date field (columns 47-53) is the
`000000` sentinel. -/
def c2vLine : String :=
  "21000100000001200002835        0000000001767820000000001120000112/4554/46812   813                                 25121421401 0"

/-- The record `parseMovement21` decodes from `c2vLine`. -/
def c2vRec : MovementRec :=
  match parseMovement21 20 c2vLine with
  | .ok r => r
  | .error _ => {}

/-- Witness for `c2_date_sentinel`: on a concrete line with value date
`000000` the decoded value date is the explicit absent value, and the date
decoder maps `"000000"` to the concrete date string `"2000-00-00"`. -/
theorem c2_date_sentinel_witness :
    jsSlice c2vLine 47 53 = "000000" ∧
    parseMovement21 20 c2vLine = .ok c2vRec ∧
    c2vRec.value_date = some none ∧
    parseDate 20 "000000" = .ok (Nat.repr 20 ++ "00-00-00") := by
  have hp : parseMovement21 20 c2vLine = .ok c2vRec := rfl
  have h := c2_date_sentinel 20 c2vLine c2vRec
  exact ⟨by decide, hp, h.1 (by decide) hp, h.2⟩

/-! ### Claim C10 -/

lemma take_two_eq {l : List Char} {a b : Char} (h : l.take 2 = [a, b]) :
    l.get? 0 = some a ∧ l.get? 1 = some b := by
  match l with
  | [] => simp at h
  | [x] => simp at h
  | x :: y :: t =>
    simp only [List.take, List.cons.injEq] at h
    obtain ⟨ha, hb, -⟩ := h
    subst ha
    subst hb
    simp

lemma jsStartsWith_second {l p : String} {a b : Char} (hp : p.data = [a, b])
    (h : jsStartsWith l p = true) : jsCharAt l 0 = some a ∧ jsCharAt l 1 = some b := by
  unfold jsStartsWith at h
  rw [beq_iff_eq] at h
  have hlen : p.length = 2 := by
    show p.data.length = 2
    rw [hp]
    rfl
  rw [hlen] at h
  unfold jsSlice at h
  rw [List.drop_zero] at h
  have hdata : l.data.take 2 = [a, b] := by
    have := congrArg String.data h
    simpa [hp] using this
  exact take_two_eq hdata

lemma jsStartsWith_false_of_second {l p : String} {a b : Char} (hp : p.data = [a, b])
    (h2 : jsCharAt l 1 ≠ some b) : jsStartsWith l p = false := by
  rcases Bool.eq_false_or_eq_true (jsStartsWith l p) with ht | hf
  · exact absurd (jsStartsWith_second hp ht).2 h2
  · exact hf

set_option maxRecDepth 8192 in
/-- Claim C10: a line whose first character is `2` (or `3`) but whose second
character is not `1`, `2` or `3` is silently skipped: the line loop leaves
the state unchanged and raises no error, in contrast with the fatal
`Unknown record type` for an unknown leading character. -/
theorem c10_unknown_article_skipped (century : Nat) (st : ParseState) (l : String) :
    (jsCharAt l 0 = some '2' →
      jsCharAt l 1 ≠ some '1' → jsCharAt l 1 ≠ some '2' → jsCharAt l 1 ≠ some '3' →
      processLine century st l = .ok st) ∧
    (jsCharAt l 0 = some '3' →
      jsCharAt l 1 ≠ some '1' → jsCharAt l 1 ≠ some '2' → jsCharAt l 1 ≠ some '3' →
      processLine century st l = .ok st) := by
  constructor
  · intro h0 h1 h2 h3
    have e1 := jsStartsWith_false_of_second (l := l) (p := "21") rfl h1
    have e2 := jsStartsWith_false_of_second (l := l) (p := "22") rfl h2
    have e3 := jsStartsWith_false_of_second (l := l) (p := "23") rfl h3
    simp only [processLine, h0, e1, e2, e3, Bool.false_eq_true, if_false]
  · intro h0 h1 h2 h3
    have e1 := jsStartsWith_false_of_second (l := l) (p := "31") rfl h1
    have e2 := jsStartsWith_false_of_second (l := l) (p := "32") rfl h2
    have e3 := jsStartsWith_false_of_second (l := l) (p := "33") rfl h3
    simp only [processLine, h0, e1, e2, e3, Bool.false_eq_true, if_false]

/-- Witness for `c10_unknown_article_skipped`: a `24...` line and a `39...`
line leave the initial state untouched. -/
theorem c10_unknown_article_skipped_witness :
    processLine 20 initState "24ABC" = .ok initState ∧
    processLine 20 initState "39XYZ" = .ok initState := by
  constructor
  · exact (c10_unknown_article_skipped 20 initState "24ABC").1 (by decide) (by decide)
      (by decide) (by decide)
  · exact (c10_unknown_article_skipped 20 initState "39XYZ").2 (by decide) (by decide)
      (by decide) (by decide)

/-! ### Claim C5 -/

/-- The leading record-type characters the line loop knows. -/
def leadingKnown (l : String) : Bool :=
  jsCharAt l 0 == some '0' || jsCharAt l 0 == some '1' || jsCharAt l 0 == some '2' ||
  jsCharAt l 0 == some '3' || jsCharAt l 0 == some '4' || jsCharAt l 0 == some '8' ||
  jsCharAt l 0 == some '9'

set_option maxRecDepth 8192 in
/-- A line with an unknown leading character makes the line loop throw
`Unknown record type`, whatever the current state. -/
lemma processLine_unknown_leading (century : Nat) (st : ParseState) (l : String)
    (h : leadingKnown l = false) :
    processLine century st l = .error .unknownRecordType := by
  simp only [leadingKnown, Bool.or_eq_false_iff, beq_eq_false_iff_ne, ne_eq] at h
  obtain ⟨⟨⟨⟨⟨⟨h0, h1⟩, h2⟩, h3⟩, h4⟩, h8⟩, h9⟩ := h
  unfold processLine
  split
  · exact absurd (by assumption) h0
  · exact absurd (by assumption) h1
  · exact absurd (by assumption) h2
  · exact absurd (by assumption) h3
  · exact absurd (by assumption) h8
  · exact absurd (by assumption) h4
  · exact absurd (by assumption) h9
  · rfl

lemma foldlM_no_ok_of_bad_line (century : Nat) :
    ∀ (lines : List String) (st : ParseState),
      (∃ x ∈ lines, leadingKnown x = false) →
      ∀ d, List.foldlM (processLine century) st lines ≠ .ok d := by
  intro lines
  induction lines with
  | nil => intro st h d; simp at h
  | cons l ls ih =>
    intro st h d
    rw [List.foldlM_cons]
    rcases Bool.eq_false_or_eq_true (leadingKnown l) with hg | hb
    · rcases h with ⟨x, hx, hxb⟩
      rcases List.mem_cons.mp hx with rfl | hmem
      · rw [hxb] at hg
        exact absurd hg (by simp)
      · cases hp : processLine century st l with
        | error e => exact fun hc => Except.noConfusion hc
        | ok st' => exact ih st' ⟨x, hmem, hxb⟩ d
    · rw [processLine_unknown_leading century st l hb]
      exact fun hc => Except.noConfusion hc

set_option maxRecDepth 8192 in
/-- Claim C5 (amended): an input containing a line with an unknown leading
record-type character never yields a document — the whole decode aborts with
an error; and when every line before the (first) offending line processes
without error, that error is precisely `Unknown record type`.  (As stated
the claim fails: an earlier malformed line can abort the decode with a
different error before the offending line is reached.) -/
theorem c5_unknown_record_type (y : Nat) (coda : String) :
    ((∃ x ∈ jsSplitNewline (jsTrim coda), leadingKnown x = false) →
      ∀ d, parse y coda ≠ .ok d) ∧
    (∀ (pre post : List String) (x : String) (st : ParseState),
      jsSplitNewline (jsTrim coda) = pre ++ x :: post →
      leadingKnown x = false →
      List.foldlM (processLine (y / 100)) initState pre = .ok st →
      parse y coda = .error .unknownRecordType) := by
  constructor
  · intro hex d hok
    simp only [parse, parseWithCentury] at hok
    rcases hf : List.foldlM (processLine (y / 100)) initState (jsSplitNewline (jsTrim coda))
      with e | st
    · rw [hf] at hok
      simp at hok
    · exact foldlM_no_ok_of_bad_line (y / 100) _ initState hex st hf
  · intro pre post x st hsplit hbad hpre
    simp only [parse, parseWithCentury]
    rw [hsplit, List.foldlM_append, hpre]
    have hx : (List.foldlM (processLine (y / 100)) st (x :: post)) =
        .error .unknownRecordType := by
      rw [List.foldlM_cons, processLine_unknown_leading (y / 100) st x hbad]
      rfl
    show (match ((Except.ok st : Except Err ParseState) >>= fun init =>
      List.foldlM (processLine (y / 100)) init (x :: post)) with
      | Except.error e => Except.error e
      | Except.ok st => _) = _
    rw [show ((Except.ok st : Except Err ParseState) >>= fun init =>
      List.foldlM (processLine (y / 100)) init (x :: post)) =
      List.foldlM (processLine (y / 100)) st (x :: post) from rfl, hx]

/-- Claim C5, counterexample: the input `"0\nX"` contains the line `"X"`,
whose leading character is outside the known set, yet the decode aborts with
`Unknown date format` (raised by the malformed header line processed first),
not with `UnknownRecordType` — so "aborts with an UnknownRecordType error"
does not hold for every such input. -/
theorem c5_counterexample :
    "X" ∈ jsSplitNewline (jsTrim "0\nX") ∧
    leadingKnown "X" = false ∧
    parse 2026 "0\nX" = .error .unknownDateFormat ∧
    Err.unknownDateFormat ≠ Err.unknownRecordType := by
  refine ⟨by decide, by decide, by decide, by decide⟩

/-- Witness for `c5_unknown_record_type`: the single-line input `"X"` aborts
with `Unknown record type` and never yields a document. -/
theorem c5_unknown_record_type_witness :
    parse 2026 "X" = .error .unknownRecordType ∧
    ∀ d, parse 2026 "X" ≠ .ok d := by
  have h := c5_unknown_record_type 2026 "X"
  refine ⟨?_, ?_⟩
  · exact h.2 [] [] "X" initState (by decide) (by decide) rfl
  · exact h.1 ⟨"X", by decide, by decide⟩

/-! ### Claim C8 -/

set_option maxRecDepth 8192 in
/-- A line whose leading character is not `1` leaves the carried
account-structure discriminant untouched. -/
lemma processLine_asd_preserved (century : Nat) (st : ParseState) (l : String)
    (h : jsCharAt l 0 ≠ some '1') :
    ∀ st', processLine century st l = .ok st' →
      st'.accountStructureData = st.accountStructureData := by
  intro st' hok
  unfold processLine at hok
  split at hok
  case h_2 => exact absurd (by assumption) h
  all_goals
    repeat' split at hok
  all_goals
    first
    | (injection hok with hok
       subst hok
       rfl)
    | injection hok

lemma foldlM_asd_preserved (century : Nat) :
    ∀ (lines : List String) (st₀ st : ParseState),
      List.foldlM (processLine century) st₀ lines = .ok st →
      (∀ x ∈ lines, jsCharAt x 0 ≠ some '1') →
      st.accountStructureData = st₀.accountStructureData := by
  intro lines
  induction lines with
  | nil =>
    intro st₀ st hf hmem
    injection hf with hf
    rw [← hf]
  | cons l ls ih =>
    intro st₀ st hf hmem
    rw [List.foldlM_cons] at hf
    cases hp : processLine century st₀ l with
    | error e =>
      rw [hp] at hf
      exact absurd hf (by simp [Bind.bind, Except.bind])
    | ok st1 =>
      rw [hp] at hf
      have h1 := processLine_asd_preserved century st₀ l (hmem l (by simp)) st1 hp
      have h2 := ih st1 st hf (fun x hx => hmem x (by simp [hx]))
      rw [h2, h1]

set_option maxRecDepth 8192 in
/-- Claim C8: a new-balance line decoded while the carried account-structure
discriminant is still `null` does not fail on that account — its `account`
field is the empty object ( `none`), and whether the decode of the line
succeeds does not depend on the discriminant at all; when an old-balance
line did precede, `account` is decoded by `parseAccount` under the carried
discriminant; and the discriminant stays `null` across any run of lines
containing no old-balance (type `1`) line. -/
theorem c8_new_balance_account (century : Nat) (l : String) (v : Option ℚ) :
    (∀ r, parseNewBalance century l none = .ok r → r.account = none) ∧
    (∀ r, parseNewBalance century l (some v) = .ok r →
      r.account = parseAccount v (jsSlice l 4 41)) ∧
    (parseNewBalance century l none).isOk = (parseNewBalance century l (some v)).isOk ∧
    (∀ (lines : List String) (st : ParseState),
      List.foldlM (processLine century) initState lines = .ok st →
      (∀ x ∈ lines, jsCharAt x 0 ≠ some '1') →
      st.accountStructureData = none) := by
  refine ⟨?_, ?_, ?_, ?_⟩
  · intro r hok
    unfold parseNewBalance at hok
    split at hok
    · exact absurd hok (by simp)
    · split at hok
      · exact absurd hok (by simp)
      · injection hok with hok
        subst hok
        rfl
  · intro r hok
    unfold parseNewBalance at hok
    split at hok
    · exact absurd hok (by simp)
    · split at hok
      · exact absurd hok (by simp)
      · injection hok with hok
        subst hok
        rfl
  · unfold parseNewBalance
    cases h1 : newBalanceBalance l with
    | error e => rfl
    | ok b =>
      cases h2 : parseDate century (jsSlice l 57 63) with
      | error e => rfl
      | ok d => rfl
  · intro lines st hf hmem
    exact foldlM_asd_preserved century lines initState st hf hmem

def c8NewLine : String :=
  "8225001548226815 EUR0BE                  1000000500012100120515                                                                0"

/-- The record decoded from `c8NewLine` with no preceding old balance. -/
def c8RecNull : NewBalance :=
  match parseNewBalance 20 c8NewLine none with
  | .ok r => r
  | .error _ => { record_identification := none, sequence_number := "", account := none,
                  balance := none, date := "", link_code := none }

/-- The record decoded from `c8NewLine` under discriminant `0`. -/
def c8RecZero : NewBalance :=
  match parseNewBalance 20 c8NewLine (some (some 0)) with
  | .ok r => r
  | .error _ => { record_identification := none, sequence_number := "", account := none,
                  balance := none, date := "", link_code := none }

/-- Witness for `c8_new_balance_account` on the repository's new-balance test
line: without a preceding old balance the account is the empty object, with
discriminant `0` it is the decoded Belgian account, and a one-line run with
no type-1 line leaves the discriminant `null`. -/
theorem c8_new_balance_account_witness :
    parseNewBalance 20 c8NewLine none = .ok c8RecNull ∧
    c8RecNull.account = none ∧
    parseNewBalance 20 c8NewLine (some (some 0)) = .ok c8RecZero ∧
    c8RecZero.account = parseAccount (some 0) (jsSlice c8NewLine 4 41) ∧
    (∀ st, List.foldlM (processLine 20) initState [c8NewLine] = .ok st →
      st.accountStructureData = none) := by
  have h := c8_new_balance_account 20 c8NewLine (some 0)
  have hp1 : parseNewBalance 20 c8NewLine none = .ok c8RecNull := rfl
  have hp2 : parseNewBalance 20 c8NewLine (some (some 0)) = .ok c8RecZero := rfl
  refine ⟨hp1, h.1 c8RecNull hp1, hp2, h.2.1 c8RecZero hp2, ?_⟩
  intro st hf
  exact h.2.2.2 [c8NewLine] st hf (by decide)

/-! ### Claim C6 -/

/-- A value outside a lookup table's key set resolves to the wildcard
default. -/
lemma matchLookup_not_mem {α : Type} (table : List (String × α)) (dflt : α) (v : String)
    (h : v ∉ table.map Prod.fst) : matchLookup table dflt v = dflt := by
  unfold matchLookup
  rw [List.find?_eq_none.mpr]
  intro kv hkv hb
  exact h (List.mem_map.mpr ⟨kv, hkv, beq_iff_eq.mp hb⟩)

set_option maxRecDepth 8192 in
set_option maxHeartbeats 1000000 in
/-- Claim C6: a `structured` communication whose leading discriminant is not
in the handled variant set makes the structured decoder throw (movement side
`Unknown structured movement communication type`, detail side
`Unknown structured communication type`), while the description lookup
tables are total functions that map every unknown code to the `<Unknown>`
sentinel instead of raising. -/
theorem c6_structured_dispatch (century : Nat) (s fam cat : String) :
    ((∀ q : ℚ, jsNumber (jsSlice s 0 3) = some q → q ∉ movStructTypes) →
      parseStructuredMovement century s =
        .error .unknownStructuredMovementCommunicationType) ∧
    (jsSlice s 0 3 ∉ detStructTypes →
      parseStructuredDetail century s = .error .unknownStructuredCommunicationType) ∧
    (fam ∉ knownFamilies → familyDescription fam = "<Unknown>") ∧
    (cat ∉ knownCategories → categoryDescription cat = .str "<Unknown>") := by
  refine ⟨?_, ?_, ?_, ?_⟩
  · intro hmem
    simp only [parseStructuredMovement, StringStream.take, Nat.reduceAdd, Nat.zero_add]
    split
    · rfl
    · rename_i q hq
      have hq' := hmem q hq
      have hf : ∀ x : ℚ, x ∈ movStructTypes → (q = x) = False :=
        fun x hx => eq_false (fun he => hq' (he ▸ hx))
      simp only [hf 100 (by decide), hf 101 (by decide), hf 102 (by decide),
        hf 103 (by decide), hf 105 (by decide), hf 106 (by decide), hf 108 (by decide),
        hf 111 (by decide), hf 113 (by decide), hf 114 (by decide), hf 115 (by decide),
        hf 121 (by decide), hf 122 (by decide), hf 123 (by decide), hf 124 (by decide),
        hf 125 (by decide), hf 126 (by decide), hf 127 (by decide), if_false]
  · intro hmem
    simp only [parseStructuredDetail, StringStream.take, Nat.reduceAdd, Nat.zero_add]
    have h2 : ¬(jsSlice s 0 3 = "002" ∨ jsSlice s 0 3 = "004" ∨ jsSlice s 0 3 = "005") := by
      rintro (he | he | he) <;> exact hmem (by rw [he]; decide)
    have h89 : ¬(jsSlice s 0 3 = "008" ∨ jsSlice s 0 3 = "009") := by
      rintro (he | he) <;> exact hmem (by rw [he]; decide)
    rw [if_neg (fun he => hmem (by rw [he]; decide)), if_neg h2,
      if_neg (fun he => hmem (by rw [he]; decide)),
      if_neg (fun he => hmem (by rw [he]; decide)), if_neg h89,
      if_neg (fun he => hmem (by rw [he]; decide)),
      if_neg (fun he => hmem (by rw [he]; decide))]
  · intro hmem
    exact matchLookup_not_mem familyTable "<Unknown>" fam hmem
  · intro hmem
    exact matchLookup_not_mem categoryTable (.str "<Unknown>") cat hmem

/-- Witness for `c6_structured_dispatch`: discriminant `999` (movement) and
`999` (detail) are fatal; family `77` and category `777` resolve to the
sentinel without raising. -/
theorem c6_structured_dispatch_witness :
    parseStructuredMovement 20 "999ABC" =
      .error .unknownStructuredMovementCommunicationType ∧
    parseStructuredDetail 20 "999ABC" = .error .unknownStructuredCommunicationType ∧
    familyDescription "77" = "<Unknown>" ∧
    categoryDescription "777" = .str "<Unknown>" := by
  have h := c6_structured_dispatch 20 "999ABC" "77" "777"
  refine ⟨h.1 ?_, h.2.1 (by decide), h.2.2.1 (by decide), h.2.2.2 (by decide)⟩
  intro q hq
  rw [show jsNumber (jsSlice "999ABC" 0 3) =
    some ((digitsVal (jsSlice "999ABC" 0 3).data : ℕ) : ℚ) from
    jsNumber_of_digits (by decide)] at hq
  injection hq with hq
  rw [← hq, show digitsVal (jsSlice "999ABC" 0 3).data = 999 by decide]
  decide


/-! ### Claims C3 and C4: chain merging -/

/-- Concatenation of a list of strings in order. -/
def concatStrs (l : List String) : String :=
  l.foldl (fun a b => a ++ b) ""

lemma assignMov_next_code {cont : MovementRec} (root : MovementRec) {x : Option Char}
    (h : cont.next_code = some x) : (assignMov root cont).next_code = some x := by
  simp [assignMov, h]

lemma foldl_assignMov_communication :
    ∀ (l : List MovementRec) (root : MovementRec) (s₀ : String),
      root.communication = .str s₀ →
      (l.foldl assignMov root).communication =
        .str (l.foldl (fun acc r => acc ++ commText r.communication) s₀) := by
  intro l
  induction l with
  | nil => intro root s₀ h; simpa using h
  | cons r rs ih =>
    intro root s₀ h
    have : (assignMov root r).communication = .str (s₀ ++ commText r.communication) := by
      simp [assignMov, h, commText]
    simpa using ih (assignMov root r) (s₀ ++ commText r.communication) this

lemma foldl_assignMov_comm_type :
    ∀ (l : List MovementRec) (root : MovementRec),
      (∀ r ∈ l, r.communication_type = none) →
      (l.foldl assignMov root).communication_type = root.communication_type := by
  intro l
  induction l with
  | nil => intro root _; rfl
  | cons r rs ih =>
    intro root hall
    have h1 : (assignMov root r).communication_type = root.communication_type := by
      simp [assignMov, hall r (by simp)]
    rw [List.foldl_cons, ih (assignMov root r) (fun y hy => hall y (by simp [hy])), h1]

lemma consumeMovChain_all_ones :
    ∀ (rest : List MovementRec) (root : MovementRec),
      root.next_code = some (some '1') →
      (∀ r ∈ rest, r.next_code = some (some '1')) →
      consumeMovChain root rest = (rest.foldl assignMov root, []) := by
  intro rest
  induction rest with
  | nil => intro root h1 _; simp [consumeMovChain]
  | cons r rs ih =>
    intro root h1 hall
    rw [consumeMovChain, if_pos h1, List.foldl_cons]
    exact ih (assignMov root r) (assignMov_next_code root (hall r (by simp)))
      (fun y hy => hall y (by simp [hy]))

lemma consumeMovChain_terminated :
    ∀ (mid : List MovementRec) (root last : MovementRec) (suffix : List MovementRec),
      root.next_code = some (some '1') →
      (∀ r ∈ mid, r.next_code = some (some '1')) →
      last.next_code = some (some '0') →
      consumeMovChain root (mid ++ last :: suffix) =
        ((mid ++ [last]).foldl assignMov root, suffix) := by
  intro mid
  induction mid with
  | nil =>
    intro root last suffix h1 _ hlast
    rw [List.nil_append, consumeMovChain, if_pos h1]
    have h0 : (assignMov root last).next_code = some (some '0') :=
      assignMov_next_code root hlast
    cases suffix with
    | nil => simp [consumeMovChain]
    | cons s ss =>
      rw [consumeMovChain, if_neg (by rw [h0]; decide)]
      simp
  | cons r rs ih =>
    intro root last suffix h1 hall hlast
    rw [List.cons_append, consumeMovChain, if_pos h1, List.cons_append, List.foldl_cons]
    exact ih (assignMov root r) last suffix
      (assignMov_next_code root (hall r (by simp)))
      (fun y hy => hall y (by simp [hy])) hlast

lemma mergeMovementsAux_fuel (century : Nat) :
    ∀ (fuel : Nat) (l : List MovementRec), l.length ≤ fuel →
      mergeMovementsAux century fuel l = mergeMovements century l := by
  intro fuel
  induction fuel using Nat.strong_induction_on with
  | _ fuel ih =>
    intro l hl
    cases l with
    | nil => cases fuel <;> rfl
    | cons m ms =>
      cases fuel with
      | zero => exact absurd hl (by simp)
      | succ f =>
        have hms : ms.length ≤ f := by simpa using hl
        rw [mergeMovements]
        simp only [List.length_cons]
        rw [mergeMovementsAux, mergeMovementsAux]
        by_cases hart : m.article_code = some '1'
        · rw [if_pos hart, if_pos hart]
          dsimp only
          have hsub := consumeMovChain_snd_length ms m
          rw [ih f (Nat.lt_succ_self f) _ (le_trans hsub hms),
            ih ms.length (Nat.lt_succ_of_le hms) _ hsub]
        · rw [if_neg hart, if_neg hart,
            ih f (Nat.lt_succ_self f) ms hms,
            ih ms.length (Nat.lt_succ_of_le hms) ms (le_refl _)]

lemma mergeInformationAux_fuel (century : Nat) :
    ∀ (fuel : Nat) (l : List InfoRec), l.length ≤ fuel →
      mergeInformationAux century fuel l = mergeInformation century l := by
  intro fuel
  induction fuel using Nat.strong_induction_on with
  | _ fuel ih =>
    intro l hl
    cases l with
    | nil => cases fuel <;> rfl
    | cons m ms =>
      cases fuel with
      | zero => exact absurd hl (by simp)
      | succ f =>
        have hms : ms.length ≤ f := by simpa using hl
        rw [mergeInformation]
        simp only [List.length_cons]
        rw [mergeInformationAux, mergeInformationAux]
        by_cases hart : m.article_code = some '1'
        · rw [if_pos hart, if_pos hart]
          dsimp only
          have hsub := consumeInfoChain_snd_length ms m
          rw [ih f (Nat.lt_succ_self f) _ (le_trans hsub hms),
            ih ms.length (Nat.lt_succ_of_le hms) _ hsub]
        · rw [if_neg hart, if_neg hart,
            ih f (Nat.lt_succ_self f) ms hms,
            ih ms.length (Nat.lt_succ_of_le hms) ms (le_refl _)]

lemma mergeFreeAux_fuel :
    ∀ (fuel : Nat) (l : List FreeComm), l.length ≤ fuel →
      mergeFreeAux fuel l = mergeFree l := by
  intro fuel
  induction fuel using Nat.strong_induction_on with
  | _ fuel ih =>
    intro l hl
    cases l with
    | nil => cases fuel <;> rfl
    | cons m ms =>
      cases fuel with
      | zero => exact absurd hl (by simp)
      | succ f =>
        have hms : ms.length ≤ f := by simpa using hl
        rw [mergeFree]
        simp only [List.length_cons]
        rw [mergeFreeAux, mergeFreeAux]
        dsimp only
        have hsub := consumeFreeChain_snd_length ms m
        rw [ih f (Nat.lt_succ_self f) _ (le_trans hsub hms),
          ih ms.length (Nat.lt_succ_of_le hms) _ hsub]

lemma mergeMovements_truncated (century : Nat) (root : MovementRec)
    (rest : List MovementRec)
    (hart : root.article_code = some '1')
    (hroot : root.next_code = some (some '1'))
    (hall : ∀ r ∈ rest, r.next_code = some (some '1'))
    (hct : root.communication_type = some .unstructured)
    (hallct : ∀ r ∈ rest, r.communication_type = none) :
    mergeMovements century (root :: rest) =
      .ok [normalizeMovComm (rest.foldl assignMov root)] := by
  have hcons := consumeMovChain_all_ones rest root hroot hall
  have htype := (foldl_assignMov_comm_type rest root hallct).trans hct
  rw [mergeMovements]
  simp only [List.length_cons]
  rw [mergeMovementsAux, if_pos hart]
  dsimp only
  simp only [hcons]
  rw [mergeMovementsAux_fuel century rest.length [] (by simp)]
  rw [show parseCommunicationMovement century (rest.foldl assignMov root).communication
      (rest.foldl assignMov root).communication_type =
      .ok (rest.foldl assignMov root).communication by
    rw [htype]
    rfl]
  rw [show mergeMovements century [] = .ok [] from rfl]

lemma mergeMovements_terminated (century : Nat) (root last : MovementRec)
    (mid suffix : List MovementRec)
    (hart : root.article_code = some '1')
    (hroot : root.next_code = some (some '1'))
    (hmid : ∀ r ∈ mid, r.next_code = some (some '1'))
    (hlast : last.next_code = some (some '0'))
    (hct : root.communication_type = some .unstructured)
    (hmidct : ∀ r ∈ mid, r.communication_type = none)
    (hlastct : last.communication_type = none) :
    mergeMovements century (root :: (mid ++ last :: suffix)) =
      (mergeMovements century suffix).map
        (fun tail => normalizeMovComm ((mid ++ [last]).foldl assignMov root) :: tail) := by
  have hcons := consumeMovChain_terminated mid root last suffix hroot hmid hlast
  have hallct : ∀ r ∈ mid ++ [last], r.communication_type = none := by
    intro r hr
    rcases List.mem_append.mp hr with h | h
    · exact hmidct r h
    · rw [List.mem_singleton.mp h]
      exact hlastct
  have htype := (foldl_assignMov_comm_type (mid ++ [last]) root hallct).trans hct
  rw [mergeMovements]
  simp only [List.length_cons]
  rw [mergeMovementsAux, if_pos hart]
  dsimp only
  simp only [hcons]
  rw [mergeMovementsAux_fuel century (mid ++ last :: suffix).length suffix
    (by simp [List.length_append]; omega)]
  rw [show parseCommunicationMovement century
      ((mid ++ [last]).foldl assignMov root).communication
      ((mid ++ [last]).foldl assignMov root).communication_type =
      .ok ((mid ++ [last]).foldl assignMov root).communication by
    rw [htype]
    rfl]
  cases h : mergeMovements century suffix with
  | error e => simp [Except.map]
  | ok tail => simp [Except.map]

lemma assignInfo_next_code {cont : InfoRec} (root : InfoRec) {x : Option Char}
    (h : cont.next_code = some x) : (assignInfo root cont).next_code = some x := by
  simp [assignInfo, h]

lemma foldl_assignInfo_communication :
    ∀ (l : List InfoRec) (root : InfoRec) (s₀ : String),
      root.communication = .str s₀ →
      (l.foldl assignInfo root).communication =
        .str (l.foldl (fun acc r => acc ++ commText r.communication) s₀) := by
  intro l
  induction l with
  | nil => intro root s₀ h; simpa using h
  | cons r rs ih =>
    intro root s₀ h
    have : (assignInfo root r).communication = .str (s₀ ++ commText r.communication) := by
      simp [assignInfo, h, commText]
    simpa using ih (assignInfo root r) (s₀ ++ commText r.communication) this

lemma foldl_assignInfo_comm_type :
    ∀ (l : List InfoRec) (root : InfoRec),
      (∀ r ∈ l, r.communication_type = none) →
      (l.foldl assignInfo root).communication_type = root.communication_type := by
  intro l
  induction l with
  | nil => intro root _; rfl
  | cons r rs ih =>
    intro root hall
    have h1 : (assignInfo root r).communication_type = root.communication_type := by
      simp [assignInfo, hall r (by simp)]
    rw [List.foldl_cons, ih (assignInfo root r) (fun y hy => hall y (by simp [hy])), h1]

lemma consumeInfoChain_all_ones :
    ∀ (rest : List InfoRec) (root : InfoRec),
      root.next_code = some (some '1') →
      (∀ r ∈ rest, r.next_code = some (some '1')) →
      consumeInfoChain root rest = (rest.foldl assignInfo root, []) := by
  intro rest
  induction rest with
  | nil => intro root h1 _; simp [consumeInfoChain]
  | cons r rs ih =>
    intro root h1 hall
    rw [consumeInfoChain, if_pos h1, List.foldl_cons]
    exact ih (assignInfo root r) (assignInfo_next_code root (hall r (by simp)))
      (fun y hy => hall y (by simp [hy]))

lemma mergeInformation_truncated (century : Nat) (root : InfoRec)
    (rest : List InfoRec)
    (hart : root.article_code = some '1')
    (hroot : root.next_code = some (some '1'))
    (hall : ∀ r ∈ rest, r.next_code = some (some '1'))
    (hct : root.communication_type = some .unstructured)
    (hallct : ∀ r ∈ rest, r.communication_type = none) :
    mergeInformation century (root :: rest) =
      .ok [normalizeInfoComm (rest.foldl assignInfo root)] := by
  have hcons := consumeInfoChain_all_ones rest root hroot hall
  have htype := (foldl_assignInfo_comm_type rest root hallct).trans hct
  rw [mergeInformation]
  simp only [List.length_cons]
  rw [mergeInformationAux, if_pos hart]
  dsimp only
  simp only [hcons]
  rw [mergeInformationAux_fuel century rest.length [] (by simp)]
  rw [show parseCommunicationDetail century (rest.foldl assignInfo root).communication
      (rest.foldl assignInfo root).communication_type =
      .ok (rest.foldl assignInfo root).communication by
    rw [htype]
    rfl]
  rw [show mergeInformation century [] = .ok [] from rfl]

lemma assignFree_link_code {cont : FreeComm} (root : FreeComm) {x : Option Char}
    (h : cont.link_code = some x) : (assignFree root cont).link_code = some x := by
  simp [assignFree, h]

lemma foldl_assignFree_text :
    ∀ (l : List FreeComm) (root : FreeComm),
      (l.foldl assignFree root).text =
        l.foldl (fun acc r => acc ++ r.text) root.text := by
  intro l
  induction l with
  | nil => intro root; rfl
  | cons r rs ih =>
    intro root
    rw [List.foldl_cons, List.foldl_cons, ih (assignFree root r)]
    rfl

lemma consumeFreeChain_all_ones :
    ∀ (rest : List FreeComm) (root : FreeComm),
      root.link_code = some (some '1') →
      (∀ r ∈ rest, r.link_code = some (some '1')) →
      consumeFreeChain root rest = (rest.foldl assignFree root, []) := by
  intro rest
  induction rest with
  | nil => intro root h1 _; simp [consumeFreeChain]
  | cons r rs ih =>
    intro root h1 hall
    rw [consumeFreeChain, if_pos h1, List.foldl_cons]
    exact ih (assignFree root r) (assignFree_link_code root (hall r (by simp)))
      (fun y hy => hall y (by simp [hy]))

lemma mergeFree_truncated (root : FreeComm) (rest : List FreeComm)
    (hroot : root.link_code = some (some '1'))
    (hall : ∀ r ∈ rest, r.link_code = some (some '1')) :
    mergeFree (root :: rest) =
      [{ rest.foldl assignFree root with
          text := jsNormalize (rest.foldl assignFree root).text }] := by
  have hcons := consumeFreeChain_all_ones rest root hroot hall
  rw [mergeFree]
  simp only [List.length_cons]
  rw [mergeFreeAux]
  dsimp only
  simp only [hcons]
  rw [mergeFreeAux_fuel rest.length [] (by simp)]
  rw [show mergeFree [] = [] from rfl]

lemma string_nil_append (s : String) : "" ++ s = s := rfl

lemma concatStrs_cons {α : Type} (f : α → String) (x : α) (l : List α) :
    concatStrs ((x :: l).map f) = l.foldl (fun acc r => acc ++ f r) (f x) := by
  rw [concatStrs, List.map_cons, List.foldl_cons, List.foldl_map, string_nil_append]

set_option maxRecDepth 8192 in
/-- Claim C3: when the last physical record of a chain still carries the
continuation flag `'1'` but no further record exists, the merge passes stop
silently — no error for movements (article-1, unstructured root),
information, or free communications — and the chain's root is emitted
carrying the communication text accumulated so far (the ordered
concatenation of every fragment seen). -/
theorem c3_truncated_chain_tolerated (century : Nat)
    (root : MovementRec) (rest : List MovementRec) (s₀ : String)
    (iroot : InfoRec) (irest : List InfoRec) (t₀ : String)
    (froot : FreeComm) (frest : List FreeComm) :
    (root.article_code = some '1' → root.next_code = some (some '1') →
      (∀ r ∈ rest, r.next_code = some (some '1')) →
      root.communication_type = some .unstructured →
      (∀ r ∈ rest, r.communication_type = none) →
      root.communication = .str s₀ →
      mergeMovements century (root :: rest) =
        .ok [normalizeMovComm (rest.foldl assignMov root)] ∧
      (rest.foldl assignMov root).communication =
        .str (concatStrs ((root :: rest).map (fun r => commText r.communication)))) ∧
    (iroot.article_code = some '1' → iroot.next_code = some (some '1') →
      (∀ r ∈ irest, r.next_code = some (some '1')) →
      iroot.communication_type = some .unstructured →
      (∀ r ∈ irest, r.communication_type = none) →
      iroot.communication = .str t₀ →
      mergeInformation century (iroot :: irest) =
        .ok [normalizeInfoComm (irest.foldl assignInfo iroot)] ∧
      (irest.foldl assignInfo iroot).communication =
        .str (concatStrs ((iroot :: irest).map (fun r => commText r.communication)))) ∧
    (froot.link_code = some (some '1') →
      (∀ r ∈ frest, r.link_code = some (some '1')) →
      mergeFree (froot :: frest) =
        [{ frest.foldl assignFree froot with
            text := jsNormalize (frest.foldl assignFree froot).text }] ∧
      (frest.foldl assignFree froot).text =
        concatStrs ((froot :: frest).map FreeComm.text)) := by
  refine ⟨?_, ?_, ?_⟩
  · intro hart hroot hall hct hallct hcomm
    refine ⟨mergeMovements_truncated century root rest hart hroot hall hct hallct, ?_⟩
    rw [foldl_assignMov_communication rest root s₀ hcomm, concatStrs_cons]
    rw [show commText root.communication = s₀ from by rw [hcomm]; rfl]
  · intro hart hroot hall hct hallct hcomm
    refine ⟨mergeInformation_truncated century iroot irest hart hroot hall hct hallct, ?_⟩
    rw [foldl_assignInfo_communication irest iroot t₀ hcomm, concatStrs_cons]
    rw [show commText iroot.communication = t₀ from by rw [hcomm]; rfl]
  · intro hroot hall
    refine ⟨mergeFree_truncated froot frest hroot hall, ?_⟩
    rw [foldl_assignFree_text frest froot, concatStrs_cons]

set_option maxRecDepth 8192 in
/-- Claim C4: for a movement chain whose article-1 root and every member but
the last carry `next_code = '1'` (the last carrying `'0'`), the while loop
consumes exactly the chain: the remaining sequence is the suffix after the
chain, the merged root's communication buffer — the value handed to the
structured-communication decoder — is the ordered concatenation of all N
fragments, and the N−1 continuation records are dropped from the final
movement sequence (the merge result is the merged root followed by the merge
of the suffix alone). -/
theorem c4_chain_merge_concat (century : Nat) (root last : MovementRec)
    (mid suffix : List MovementRec) (s₀ : String)
    (hart : root.article_code = some '1')
    (hroot : root.next_code = some (some '1'))
    (hmid : ∀ r ∈ mid, r.next_code = some (some '1'))
    (hlast : last.next_code = some (some '0'))
    (hcomm : root.communication = .str s₀) :
    (consumeMovChain root (mid ++ last :: suffix)).2 = suffix ∧
    (consumeMovChain root (mid ++ last :: suffix)).1.communication =
      .str (concatStrs ((root :: (mid ++ [last])).map (fun r => commText r.communication))) ∧
    (root.communication_type = some .unstructured →
      (∀ r ∈ mid, r.communication_type = none) → last.communication_type = none →
      mergeMovements century (root :: (mid ++ last :: suffix)) =
        (mergeMovements century suffix).map
          (fun tail => normalizeMovComm ((mid ++ [last]).foldl assignMov root) :: tail)) := by
  have hcons := consumeMovChain_terminated mid root last suffix hroot hmid hlast
  refine ⟨by rw [hcons], ?_, ?_⟩
  · rw [hcons]
    rw [foldl_assignMov_communication (mid ++ [last]) root s₀ hcomm, concatStrs_cons]
    rw [show commText root.communication = s₀ from by rw [hcomm]; rfl]
  · intro hct hmidct hlastct
    exact mergeMovements_terminated century root last mid suffix hart hroot hmid hlast
      hct hmidct hlastct

def c3MovRoot : MovementRec :=
  { article_code := some '1', next_code := some (some '1'),
    communication := .str "AB ", communication_type := some .unstructured }

def c3MovCont : MovementRec :=
  { article_code := some '2', next_code := some (some '1'), communication := .str " CD" }

def c3InfoRoot : InfoRec :=
  { article_code := some '1', next_code := some (some '1'),
    communication := .str "EF ", communication_type := some .unstructured }

def c3InfoCont : InfoRec :=
  { article_code := some '2', next_code := some (some '1'), communication := .str " GH" }

def c3FreeRoot : FreeComm := { link_code := some (some '1'), text := "IJ" }

def c3FreeCont : FreeComm := { link_code := some (some '1'), text := " KL" }

/-- Witness for `c3_truncated_chain_tolerated` on two-record chains whose
last record still carries the continuation flag. -/
theorem c3_truncated_chain_tolerated_witness :
    mergeMovements 20 [c3MovRoot, c3MovCont] =
      .ok [normalizeMovComm ([c3MovCont].foldl assignMov c3MovRoot)] ∧
    ([c3MovCont].foldl assignMov c3MovRoot).communication = .str "AB  CD" ∧
    mergeInformation 20 [c3InfoRoot, c3InfoCont] =
      .ok [normalizeInfoComm ([c3InfoCont].foldl assignInfo c3InfoRoot)] ∧
    ([c3InfoCont].foldl assignInfo c3InfoRoot).communication = .str "EF  GH" ∧
    mergeFree [c3FreeRoot, c3FreeCont] =
      [{ [c3FreeCont].foldl assignFree c3FreeRoot with
          text := jsNormalize ([c3FreeCont].foldl assignFree c3FreeRoot).text }] ∧
    ([c3FreeCont].foldl assignFree c3FreeRoot).text = "IJ KL" := by
  have h := c3_truncated_chain_tolerated 20 c3MovRoot [c3MovCont] "AB "
    c3InfoRoot [c3InfoCont] "EF " c3FreeRoot [c3FreeCont]
  have h1 := h.1 (by decide) (by decide) (by decide) (by decide) (by decide) rfl
  have h2 := h.2.1 (by decide) (by decide) (by decide) (by decide) (by decide) rfl
  have h3 := h.2.2 (by decide) (by decide)
  exact ⟨h1.1, h1.2.trans (by decide), h2.1, h2.2.trans (by decide), h3.1,
    h3.2.trans (by decide)⟩

def c4Root : MovementRec :=
  { article_code := some '1', next_code := some (some '1'),
    communication := .str "AB", communication_type := some .unstructured }

def c4Mid : MovementRec :=
  { article_code := some '2', next_code := some (some '1'), communication := .str " CD" }

def c4Last : MovementRec :=
  { article_code := some '3', next_code := some (some '0'), communication := .str " EF" }

def c4Suf : MovementRec :=
  { article_code := some '3', next_code := some (some '0'), communication := .str "ZZ" }

/-- Witness for `c4_chain_merge_concat` on a three-record chain followed by
one unrelated record: the buffer before structured decoding is the ordered
concatenation `"AB CD EF"` and only the suffix survives alongside the merged
root. -/
theorem c4_chain_merge_concat_witness :
    (consumeMovChain c4Root [c4Mid, c4Last, c4Suf]).2 = [c4Suf] ∧
    (consumeMovChain c4Root [c4Mid, c4Last, c4Suf]).1.communication = .str "AB CD EF" ∧
    mergeMovements 20 [c4Root, c4Mid, c4Last, c4Suf] =
      (mergeMovements 20 [c4Suf]).map
        (fun tail => normalizeMovComm ([c4Mid, c4Last].foldl assignMov c4Root) :: tail) := by
  have h := c4_chain_merge_concat 20 c4Root c4Last [c4Mid] [c4Suf] "AB"
    (by decide) (by decide) (by decide) (by decide) rfl
  exact ⟨h.1, h.2.1.trans (by decide), h.2.2 (by decide) (by decide) (by decide)⟩

/-! ### Claim C9 -/

def c9HdrLine : String :=
  "0000018011520105        0938409934CODELICIOUS               GEBABEBB   09029308273 00001          984309          834080       2"

set_option maxRecDepth 16384 in
/-- Claim C9, counterexample: `parse` reads the ambient clock — the century
prefix of every 2-digit year comes from the current system year.  Two calls
on the same text made under different centuries (system years 2099 and 2100)
yield structurally different documents: the header date decodes to
`2015-01-18` under one call and `2115-01-18` under the other. -/
theorem c9_clock_dependence_counterexample :
    (parse 2099 c9HdrLine).map (fun d => d.header.map Header.date) =
      .ok (some "2015-01-18") ∧
    (parse 2100 c9HdrLine).map (fun d => d.header.map Header.date) =
      .ok (some "2115-01-18") ∧
    parse 2099 c9HdrLine ≠ parse 2100 c9HdrLine := by
  have h1 : (parse 2099 c9HdrLine).map (fun d => d.header.map Header.date) =
      .ok (some "2015-01-18") := by decide
  have h2 : (parse 2100 c9HdrLine).map (fun d => d.header.map Header.date) =
      .ok (some "2115-01-18") := by decide
  refine ⟨h1, h2, ?_⟩
  intro h
  rw [h] at h1
  exact absurd (h1.symm.trans h2) (by decide)

/-- Claim C9 (amended): `parse` is a deterministic function of the input
text and the current system year, and it depends on the year only through
its century (`year / 100`): two calls with the same text whose system years
share a century yield structurally identical documents. -/
theorem c9_deterministic_given_century (y₁ y₂ : Nat) (coda : String)
    (h : y₁ / 100 = y₂ / 100) :
    parse y₁ coda = parse y₂ coda := by
  unfold parse
  rw [h]

/-- Witness for `c9_deterministic_given_century`: system years 2025 and 2026
share century 20, so the two calls agree on the header test line. -/
theorem c9_deterministic_given_century_witness :
    parse 2025 c9HdrLine = parse 2026 c9HdrLine :=
  c9_deterministic_given_century 2025 2026 c9HdrLine (by decide)

/-! ### Claim C7: linking information records to movements -/

lemma keyMatch_linkStep (m : MovementRec) (y x : InfoRec) :
    keyMatch (linkStep m y) x = keyMatch m x := by
  unfold linkStep
  by_cases h : keyMatch m y
  · rw [if_pos h]; rfl
  · rw [if_neg h]

lemma linkScan_fst (infos : List InfoRec) :
    ∀ (movs : List MovementRec) (d : List InfoRec),
      (infos.foldl linkScan (movs, d)).1 = movs.map (fun m => infos.foldl linkStep m) := by
  induction infos with
  | nil => intro movs d; simp
  | cons y ys ih =>
    intro movs d
    rw [List.foldl_cons,
      show linkScan (movs, d) y = (movs.map (fun m => linkStep m y),
        d ++ (movs.filter (fun m => keyMatch m y)).map (fun _ => y)) from rfl,
      ih, List.map_map]
    rfl

lemma mem_info_pushInfo (m : MovementRec) (x : InfoRec) :
    x ∈ ((pushInfo m x).information.getD []) := by
  simp [pushInfo]

lemma mem_info_linkStep {x : InfoRec} (y : InfoRec) {m : MovementRec}
    (h : x ∈ m.information.getD []) : x ∈ ((linkStep m y).information.getD []) := by
  unfold linkStep
  by_cases hk : keyMatch m y
  · rw [if_pos hk]
    simp only [pushInfo, Option.getD_some, List.mem_append]
    exact Or.inl h
  · rw [if_neg hk]; exact h

lemma mem_info_fold {x : InfoRec} :
    ∀ (ys : List InfoRec) (m : MovementRec),
      x ∈ m.information.getD [] → x ∈ ((ys.foldl linkStep m).information.getD []) := by
  intro ys
  induction ys with
  | nil => intro m h; exact h
  | cons y ys ih => intro m h; exact ih (linkStep m y) (mem_info_linkStep y h)

lemma mem_info_fold_match {x : InfoRec} :
    ∀ (ys : List InfoRec) (m : MovementRec),
      keyMatch m x = true → x ∈ ys →
      x ∈ ((ys.foldl linkStep m).information.getD []) := by
  intro ys
  induction ys with
  | nil => intro m _ h; exact absurd h (List.not_mem_nil x)
  | cons y ys ih =>
    intro m hk hmem
    rw [List.foldl_cons]
    rcases List.mem_cons.mp hmem with h | h
    · subst h
      refine mem_info_fold ys (linkStep m x) ?_
      unfold linkStep
      rw [if_pos hk]
      exact mem_info_pushInfo m x
    · exact ih (linkStep m y) (by rw [keyMatch_linkStep]; exact hk) h

lemma count_const_map (y x : InfoRec) (l : List MovementRec) :
    List.count x (l.map (fun _ => y)) = if y = x then l.length else 0 := by
  rw [show (l.map (fun _ => y)) = List.replicate l.length y from List.map_const' l y]
  by_cases h : y = x
  · subst h
    rw [if_pos rfl, List.count_replicate_self]
  · rw [if_neg h, List.count_replicate,
      if_neg (by simp only [beq_iff_eq]; exact fun he => h he)]

lemma linkScan_snd_count (x : InfoRec) :
    ∀ (infos : List InfoRec) (movs : List MovementRec) (d : List InfoRec),
      List.count x (infos.foldl linkScan (movs, d)).2 =
        List.count x d +
          List.count x infos * movs.countP (fun m => keyMatch m x) := by
  intro infos
  induction infos with
  | nil => intro movs d; simp
  | cons y ys ih =>
    intro movs d
    rw [List.foldl_cons,
      show linkScan (movs, d) y = (movs.map (fun m => linkStep m y),
        d ++ (movs.filter (fun m => keyMatch m y)).map (fun _ => y)) from rfl,
      ih, List.count_append]
    have hcpm : (movs.map (fun m => linkStep m y)).countP (fun m => keyMatch m x) =
        movs.countP (fun m => keyMatch m x) := by
      rw [List.countP_map]
      exact List.countP_congr (fun m _ => by
        simp only [Function.comp_apply, keyMatch_linkStep])
    rw [hcpm, count_const_map]
    by_cases hyx : y = x
    · subst hyx
      rw [if_pos rfl, List.count_cons_self,
        show (movs.filter (fun m => keyMatch m y)).length =
          movs.countP (fun m => keyMatch m y) from
          (List.countP_eq_length_filter _ _).symm]
      ring
    · rw [if_neg hyx, List.count_cons_of_ne (fun he => hyx he.symm)]
      omega

lemma spliceRemove_count (x : InfoRec) :
    ∀ (drop l : List InfoRec),
      List.count x l ≤ List.count x drop →
      List.count x (drop.foldl spliceRemove l) = 0 := by
  intro drop
  induction drop with
  | nil =>
    intro l h
    simp only [List.count_nil, Nat.le_zero] at h
    simpa using h
  | cons d ds ih =>
    intro l h
    rw [List.foldl_cons]
    apply ih
    unfold spliceRemove
    by_cases hc : l.contains d
    · rw [if_pos hc]
      by_cases hdx : d = x
      · subst hdx
        rw [List.count_erase_self]
        rw [List.count_cons_self] at h
        omega
      · rw [List.count_erase_of_ne (fun he => hdx he.symm)]
        rw [List.count_cons_of_ne (fun he => hdx he.symm)] at h
        omega
    · rw [if_neg hc]
      have hsub : List.count x l.dropLast ≤ List.count x l :=
        (List.dropLast_prefix l).sublist.count_le x
      by_cases hdx : d = x
      · have h0 : List.count x l = 0 := by
          rw [List.count_eq_zero]
          intro hm
          rw [hdx] at hc
          exact hc (List.elem_iff.mpr hm)
        omega
      · rw [List.count_cons_of_ne (fun he => hdx he.symm)] at h
        omega

/-- Claim C7: after the linking pass, every movement sharing the
`(sequence, reference_number)` key with an information record has that
record appended to its `information` list — every matching movement, not
just the first — and the matched information record is absent from the
top-level information list. -/
theorem c7_linking (movs : List MovementRec) (infos : List InfoRec) (x : InfoRec)
    (hx : x ∈ infos) (m₀ : MovementRec) (hm₀ : m₀ ∈ movs)
    (hk₀ : keyMatch m₀ x = true) :
    (linkInformation movs infos).1 = movs.map (fun m => infos.foldl linkStep m) ∧
    (∀ m ∈ movs, keyMatch m x = true →
      x ∈ ((infos.foldl linkStep m).information.getD [])) ∧
    x ∉ (linkInformation movs infos).2 := by
  refine ⟨?_, ?_, ?_⟩
  · show (infos.foldl linkScan (movs, [])).1 = _
    exact linkScan_fst infos movs []
  · intro m _ hk
    exact mem_info_fold_match infos m hk hx
  · have hK : 0 < movs.countP (fun m => keyMatch m x) :=
      List.countP_pos_iff.mpr ⟨m₀, hm₀, hk₀⟩
    have hdrop : List.count x infos ≤
        List.count x ((infos.foldl linkScan (movs, [])).2) := by
      rw [linkScan_snd_count]
      simp only [List.count_nil, Nat.zero_add]
      exact Nat.le_mul_of_pos_right _ hK
    have h0 := spliceRemove_count x ((infos.foldl linkScan (movs, [])).2) infos hdrop
    show x ∉ ((infos.foldl linkScan (movs, [])).2).foldl spliceRemove infos
    exact List.count_eq_zero.mp h0

def c7Mov1 : MovementRec :=
  { sequence := some "0001", reference_number := some "0001200002835" }

def c7Mov2 : MovementRec :=
  { sequence := some "0001", reference_number := some "0001200002835",
    bic := some "GEBCEEBB" }

def c7MovOther : MovementRec := { sequence := some "0002" }

def c7Info : InfoRec :=
  { sequence := "0001", reference_number := some "0001200002835" }

def c7InfoOther : InfoRec := { sequence := "0009" }

/-- Witness for `c7_linking`: one information record whose key matches two
of the three movements is pushed onto both matching movements and vanishes
from the top-level list. -/
theorem c7_linking_witness :
    (linkInformation [c7Mov1, c7MovOther, c7Mov2] [c7Info, c7InfoOther]).1 =
      [c7Mov1, c7MovOther, c7Mov2].map
        (fun m => [c7Info, c7InfoOther].foldl linkStep m) ∧
    (∀ m ∈ [c7Mov1, c7MovOther, c7Mov2], keyMatch m c7Info = true →
      c7Info ∈ (([c7Info, c7InfoOther].foldl linkStep m).information.getD [])) ∧
    c7Info ∉ (linkInformation [c7Mov1, c7MovOther, c7Mov2] [c7Info, c7InfoOther]).2 :=
  c7_linking [c7Mov1, c7MovOther, c7Mov2] [c7Info, c7InfoOther] c7Info
    (by decide) c7Mov1 (by decide) (by decide)
